import Mathlib

/-!
Shallow embedding of oh-my-tuna.py (tuna/oh-my-tuna) in Lean 4, together with
theorems settling the frozen claims about its specification.

Modelling conventions:
* Python strings are Lean `String`s; file contents manipulated line-by-line are
  `List Char` so that the `readlines`/`writelines` behaviour can be reasoned
  about exactly.
* `sh(cmd)` returns `Option String` (`none` models a failed external command,
  which the Python helper turns into `None` by catching every exception).
* Interactive input is a `Gate`: the process-wide `always_yes` flag plus a
  stream of operator answers.  `user_prompt` is the pure core of the Python
  function of the same name (lines 68-76).
* Fallible Python code (uncaught exceptions) is embedded with `Except`.
-/

namespace OhMyTuna

/-- Log levels of `Base.log` (oh-my-tuna.py lines 200-222): verbose, info, ok,
debug, warning, error. -/
inductive Level
  | v | i | o | d | w | e
deriving DecidableEq, Repr

/-- One log line printed by `Base.log`: the module name, the message and the
level (which selects the colour). -/
structure Event where
  module : String
  msg : String
  level : Level
deriving DecidableEq, Repr

/-- Result of one call of `user_prompt` (lines 68-76): the returned Bool, the
new value of the global `always_yes` flag, and whether `input(...)` ran. -/
structure PromptOut where
  result : Bool
  alwaysYes : Bool
  prompted : Bool
deriving DecidableEq, Repr

/-- Embeds `user_prompt` (lines 68-76).  If `always_yes` is set the function
returns True without prompting; otherwise it reads an answer, sets the flag on
the exact answer "a", and returns `ans != 'n'`. -/
def user_prompt (alwaysYes0 : Bool) (ans : String) : PromptOut :=
  if alwaysYes0 then ⟨true, true, false⟩
  else ⟨ans != "n", ans == "a", true⟩

/-- Runs a sequence of `user_prompt` calls, threading the `always_yes` flag:
returns the final flag and the list of per-call outcomes.  The `n`-th answer in
the list is what the operator would type at the `n`-th actual prompt. -/
def runPrompts : Bool → List String → Bool × List PromptOut
  | b, [] => (b, [])
  | b, a :: rest =>
    let o := user_prompt b a
    let r := runPrompts o.alwaysYes rest
    (r.1, o :: r.2)

/-- Interactive state threaded through stateful module operations: the
`always_yes` flag and an infinite supply of operator answers with a cursor
(the cursor advances only when a prompt actually happens). -/
structure Gate where
  alwaysYes : Bool
  idx : Nat
  answers : Nat → String

/-- One confirmation, stateful form: calls `user_prompt` on the current flag
and the next pending answer, consuming the answer only if a prompt occurred. -/
def promptStep (g : Gate) : Bool × Gate :=
  let o := user_prompt g.alwaysYes (g.answers g.idx)
  (o.result, ⟨o.alwaysYes, if o.prompted then g.idx + 1 else g.idx, g.answers⟩)

/-! ## Dispatcher model (main, lines 676-714)

A module's observable behaviour during one dispatcher pass is abstracted by
`ModR`: what each of its four entry points does when called.  `QRes` is the
outcome of a query (`is_applicable` / `is_online`): a Bool or an uncaught
exception.  `ARes` is the outcome of a transition (`up()` / `down()`): a Bool,
a `NotImplementedError` (the distinguishable "not implemented" signal raised by
`Base.up` / `Base.down`, lines 182-194), or any other uncaught exception. -/

/-- Outcome of a query method: a boolean, or an uncaught exception. -/
inductive QRes
  | ok (b : Bool)
  | raise
deriving DecidableEq, Repr

/-- Outcome of a transition method: a boolean, a NotImplementedError, or some
other exception (which the dispatcher does not catch). -/
inductive ARes
  | ok (b : Bool)
  | notImpl
  | raiseOther
deriving DecidableEq, Repr

/-- The three subcommands of main. -/
inductive Cmd
  | up | down | status
deriving DecidableEq, Repr

/-- Behaviour of one registered module during a single dispatcher pass. -/
structure ModR where
  name : String
  applicable : QRes
  online : QRes
  up : ARes
  down : ARes
deriving DecidableEq, Repr

/-- What evaluating one module under one subcommand produces: the log events
printed (in order), whether the transition method was invoked, and whether an
uncaught exception escaped (aborting the whole run). -/
structure EvalOut where
  events : List Event
  invoked : Bool
  crashed : Bool
deriving DecidableEq, Repr

/-- Embeds the per-module body of the three dispatcher loops in `main`
(lines 676-714).  Note the `try`/`except NotImplementedError` only wraps the
`m.up()` / `m.down()` call; exceptions from `is_applicable` or `is_online`, and
non-NotImplementedError exceptions from the transition, are not caught. -/
def evalModule (c : Cmd) (m : ModR) : EvalOut :=
  match m.applicable with
  | .raise => ⟨[], false, true⟩
  | .ok false => ⟨[], false, false⟩
  | .ok true =>
    match c with
    | .status =>
      match m.online with
      | .raise => ⟨[], false, true⟩
      | .ok true => ⟨[⟨m.name, "Online", .o⟩], false, false⟩
      | .ok false => ⟨[⟨m.name, "Offline", .i⟩], false, false⟩
    | .up =>
      match m.online with
      | .raise => ⟨[], false, true⟩
      | .ok true => ⟨[], false, false⟩
      | .ok false =>
        match m.up with
        | .ok true =>
          ⟨[⟨m.name, "Activating...", .i⟩,
            ⟨m.name, "Mirror has been activated", .o⟩], true, false⟩
        | .ok false =>
          ⟨[⟨m.name, "Activating...", .i⟩,
            ⟨m.name, "Operation cancled", .w⟩], true, false⟩
        | .notImpl =>
          ⟨[⟨m.name, "Activating...", .i⟩,
            ⟨m.name, "Mirror doesn\x27t support activation. Please activate manually", .e⟩],
           true, false⟩
        | .raiseOther => ⟨[⟨m.name, "Activating...", .i⟩], true, true⟩
    | .down =>
      match m.online with
      | .raise => ⟨[], false, true⟩
      | .ok false => ⟨[], false, false⟩
      | .ok true =>
        match m.down with
        | .ok true =>
          ⟨[⟨m.name, "Deactivating...", .i⟩,
            ⟨m.name, "Mirror has been deactivated", .o⟩], true, false⟩
        | .ok false =>
          ⟨[⟨m.name, "Deactivating...", .i⟩,
            ⟨m.name, "Operation cancled", .w⟩], true, false⟩
        | .notImpl =>
          ⟨[⟨m.name, "Deactivating...", .i⟩,
            ⟨m.name, "Mirror doesn\x27t support deactivation. Please deactivate manually", .e⟩],
           true, false⟩
        | .raiseOther => ⟨[⟨m.name, "Deactivating...", .i⟩], true, true⟩

/-- Result of a whole dispatcher pass: all events printed, the names of the
modules whose evaluation was reached, and whether the pass was aborted by an
uncaught exception. -/
structure RunOut where
  events : List Event
  evaluated : List String
  crashed : Bool
deriving DecidableEq, Repr

/-- Embeds the dispatcher loop of `main`: modules are evaluated in list order;
an uncaught exception aborts the loop (and the process), so later modules are
never reached. -/
def runCmd (c : Cmd) : List ModR → RunOut
  | [] => ⟨[], [], false⟩
  | m :: rest =>
    let o := evalModule c m
    if o.crashed then ⟨o.events, [m.name], true⟩
    else
      let r := runCmd c rest
      ⟨o.events ++ r.events, m.name :: r.evaluated, r.crashed⟩

/-- Process exit status: `main` has no explicit non-zero exit path, so the
process exits 0 unless an uncaught exception escapes (Python then exits 1). -/
def exitCode (r : RunOut) : Nat := if r.crashed then 1 else 0

/-! ## Host model: `sh`, files, and the applicability predicates -/

/-- The host environment seen by the detection code: the result of `sh` for
each command line (`none` = the command failed or does not exist), file
existence, and the global-scope flag set by the -g option. -/
structure Host where
  exec : String → Option String
  isFile : String → Bool
  isGlobal : Bool

/-- Splits a character list at every occurrence of a separator, dropping the
separators and keeping empty pieces: the behaviour of Python str.split with an
explicit separator. -/
def splitOnChar (sep : Char) : List Char → List (List Char)
  | [] => [[]]
  | c :: cs =>
    if c = sep then [] :: splitOnChar sep cs
    else
      match splitOnChar sep cs with
      | [] => [[c]]
      | l :: ls => (c :: l) :: ls

/-- Embeds one line of the multiline regex search in `get_linux_distro`
(regex at line 44, used at lines 97-104): matches a line of /etc/os-release
of shape ID="?([^"\n]+)"?$ and returns the captured group. -/
def idLineMatch (line : List Char) : Option String :=
  match line with
  | 'I' :: 'D' :: '=' :: r =>
    let core := fun (cs : List Char) =>
      let body := cs.takeWhile (fun c => (c != '\"') && (c != '\n'))
      if body.length > 0 && (cs.drop body.length == [] || cs.drop body.length == ['\"']) then
        some (String.mk body)
      else none
    match r with
    | '\"' :: tl => core tl
    | _ => core r
  | _ => none

/-- Embeds `get_linux_distro` (lines 97-104): `None` when reading
/etc/os-release fails or yields the empty string, or when the number of ID
lines found differs from one. -/
def get_linux_distro (h : Host) : Option String :=
  match h.exec "cat /etc/os-release" with
  | none => none
  | some osRelease =>
    if osRelease == "" then none
    else
      match (splitOnChar '\n' osRelease.toList).filterMap idLineMatch with
      | [m] => some m
      | _ => none

/-- Embeds `ArchLinux.is_applicable` (lines 309-315). -/
def ArchLinux.is_applicable (h : Host) : Bool :=
  h.isGlobal &&
    (h.isFile "/etc/pacman.d/mirrorlist" && (get_linux_distro h == some "arch"))

/-- Embeds `Homebrew.is_applicable` (lines 400-405). -/
def Homebrew.is_applicable (h : Host) : Bool :=
  h.isGlobal && (h.exec "brew --repo").isSome

/-- Embeds `CTAN.is_applicable` (lines 464-467). -/
def CTAN.is_applicable (h : Host) : Bool :=
  (h.exec "tlmgr --version").isSome

/-- Embeds `Pypi.is_applicable` (lines 247-253): skipped in global mode. -/
def Pypi.is_applicable (h : Host) : Bool :=
  !h.isGlobal && ((h.exec "pip").isSome || (h.exec "pip3").isSome)

/-- Embeds `Anaconda.is_applicable` (lines 507-510). -/
def Anaconda.is_applicable (h : Host) : Bool :=
  (h.exec "conda -V").isSome

/-- Embeds `Debian.is_applicable` (lines 579-585). -/
def Debian.is_applicable (h : Host) : Bool :=
  h.isGlobal &&
    (h.isFile "/etc/apt/sources.list" && (get_linux_distro h == some "debian"))

/-- Embeds `Ubuntu.is_applicable` (lines 633-639). -/
def Ubuntu.is_applicable (h : Host) : Bool :=
  h.isGlobal &&
    (h.isFile "/etc/apt/sources.list" && (get_linux_distro h == some "ubuntu"))

/-- The registered modules (line 642), paired with their applicability
predicates over the host. -/
def MODULES : List (String × (Host → Bool)) :=
  [("Arch Linux", ArchLinux.is_applicable),
   ("Homebrew", Homebrew.is_applicable),
   ("CTAN", CTAN.is_applicable),
   ("pypi", Pypi.is_applicable),
   ("Anaconda", Anaconda.is_applicable),
   ("Debian", Debian.is_applicable),
   ("Ubuntu", Ubuntu.is_applicable)]

/-- Embeds the `status` loop of `main` (lines 708-714), given an oracle for
each applicable module's online state: the log lines printed. -/
def statusOutput (h : Host) (online : String → Bool) : List Event :=
  MODULES.foldr
    (fun m acc =>
      if m.2 h then
        (if online m.1 then Event.mk m.1 "Online" .o else Event.mk m.1 "Offline" .i) :: acc
      else acc)
    []

/-! ## Anaconda.is_online (lines 513-527) -/

/-- Substring test, embedding the Python `in` operator on strings. -/
def listHasPrefix : List Char → List Char → Bool
  | [], _ => true
  | _ :: _, [] => false
  | p :: ps, c :: cs => (p == c) && listHasPrefix ps cs

/-- Substring containment on char lists. -/
def listHasInfix (pat : List Char) : List Char → Bool
  | [] => listHasPrefix pat []
  | c :: cs => listHasPrefix pat (c :: cs) || listHasInfix pat cs

/-- Python `pat in s` for strings. -/
def strContains (s pat : String) : Bool :=
  listHasInfix pat.toList s.toList

/-- The free-channel mirror URL (line 498). -/
def Anaconda.url_free : String :=
  "https://mirrors.tuna.tsinghua.edu.cn/anaconda/pkgs/free/"

/-- The main-channel mirror URL (line 499). -/
def Anaconda.url_main : String :=
  "https://mirrors.tuna.tsinghua.edu.cn/anaconda/pkgs/main/"

/-- Embeds `Anaconda.is_online` (lines 513-527).  The Python code calls
`sh(cmd).split('\n')`; when `sh` returns `None` (the command failed) this
raises `AttributeError` instead of returning False, which the embedding records
as an `Except.error`. -/
def Anaconda.is_online (h : Host) : Except String Bool :=
  let cmd :=
    if h.isGlobal then "conda config --get channels --system"
    else "conda config --get channels"
  match h.exec cmd with
  | none => .error "AttributeError: \x27NoneType\x27 object has no attribute \x27split\x27"
  | some out =>
    let channels := splitOnChar '\n' out.toList
    let inChannels := channels.foldl
      (fun n line =>
        if listHasInfix Anaconda.url_free.toList line then n + 1
        else if listHasInfix Anaconda.url_main.toList line then n + 1
        else n) 0
    .ok (inChannels == 2)

/-- A host on which conda itself works (so `conda -V` succeeds and the module
is applicable) but `conda config --get channels` fails, e.g. because ~/.condarc
is malformed: `sh` then returns `None`. -/
def condaHost : Host :=
  ⟨fun c => if c == "conda -V" then some "conda 4.5.11" else none,
   fun _ => false, true⟩

/-! ## The scoped working-directory change `cd` (lines 47-54) -/

/-- Embeds the `cd` context manager (lines 47-54) over an abstract directory
structure.  `dirs` says which paths exist; `path` is the argument (`none`
models passing Python `None`, on which `os.chdir` raises before the `try`);
`body` runs with the new working directory and returns its outcome together
with the working directory it left behind; the `finally` block re-runs
`os.chdir(old_cwd)` on every exit path. -/
def cdScope {E α : Type} (dirs : String → Bool) (path : Option String)
    (body : String → Except E α × String) (cwd : String) :
    Except (Option E) α × String :=
  match path with
  | none => (.error none, cwd)
  | some p =>
    if dirs p then
      let r := body p
      let cwdF := if dirs cwd then cwd else r.2
      (r.1.mapError some, cwdF)
    else (.error none, cwd)

/-! ## Line-level file machinery

The pacman mirrorlist is read with `readlines()` and rewritten with `write` /
`writelines`, so file contents are modelled as `List Char` and split into
newline-terminated lines exactly the way Python does. -/

/-- Splits a character stream into lines the way Python `readlines` does: each
line keeps its trailing newline; a final unterminated chunk is its own line. -/
def splitKeep : List Char → List (List Char)
  | [] => []
  | c :: cs =>
    if c = '\n' then ['\n'] :: splitKeep cs
    else
      match splitKeep cs with
      | [] => [[c]]
      | l :: ls => (c :: l) :: ls

/-- A well-formed single line: nonempty, with a newline allowed only as its
last character. -/
def goodLine : List Char → Bool
  | [] => false
  | c :: cs => cs.isEmpty || ((c != '\n') && goodLine cs)

/-- A well-formed line decomposition of a file: every line is `goodLine` and
every line except possibly the last ends with a newline. -/
def linesOk : List (List Char) → Bool
  | [] => true
  | l :: ls => goodLine l && ((ls.isEmpty || l.getLast? == some '\n') && linesOk ls)

/-! ## Regex fragments used by the modules

The patterns are built by interpolating the mirror URL into a raw pattern
string, so the dots of the URL are regex wildcards; everything else is
literal.  `re.match` anchors at the start of the line only. -/

/-- Consumes the leading spaces matched by a (space)* regex fragment. -/
def dropSpaces : List Char → List Char
  | [] => []
  | c :: cs => if c == ' ' then dropSpaces cs else c :: cs

/-- Matches a pattern fragment at the head of the input; a dot in the pattern
is the regex wildcard.  Returns the remaining input on success. -/
def eatPat : List Char → List Char → Option (List Char)
  | [], cs => some cs
  | _ :: _, [] => none
  | p :: ps, c :: cs => if (p == '.') || (p == c) then eatPat ps cs else none

/-- The regex alternation (http|https) followed by the literal "://", with the
backtracking regex semantics. -/
def eatScheme (cs : List Char) : Option (List Char) :=
  match eatPat ['h','t','t','p'] cs with
  | none => none
  | some cs1 =>
    match cs1 with
    | 's' :: cs2 =>
      match eatPat [':','/','/'] cs2 with
      | some r => some r
      | none => eatPat [':','/','/'] cs1
    | _ => eatPat [':','/','/'] cs1

/-! ## ArchLinux module (lines 304-392) -/

/-- The host-and-path tail of the pacman Server patterns (dots wildcard). -/
def archHostTail : List Char :=
  ("mirrors.tuna.tsinghua.edu.cn/archlinux/$repo/os/$path\n").toList

/-- The part of the pacman regexes after the optional comment marker:
Server (space)* = (space)* (http|https)://host/archlinux/..path..(newline). -/
def archServerTail (cs : List Char) : Bool :=
  (do
    let cs1 ← eatPat ['S','e','r','v','e','r'] cs
    let cs3 ← eatPat ['='] (dropSpaces cs1)
    let cs5 ← eatScheme (dropSpaces cs3)
    let _ ← eatPat archHostTail cs5
    pure ()).isSome

/-- Embeds the strict mirror regex of `ArchLinux.is_online` / `down`
(lines 318-321 and 379-381): no comment marker allowed. -/
def archMatchStrict (line : List Char) : Bool :=
  archServerTail (dropSpaces line)

/-- Embeds the lenient mirror regex of `ArchLinux.up` (lines 332-334):
an optional "# (space)*" before Server. -/
def archMatchUp (line : List Char) : Bool :=
  match dropSpaces line with
  | '#' :: cs => archServerTail (dropSpaces cs)
  | cs => archServerTail cs

/-- The banner line inserted by `ArchLinux.up` (line 335). -/
def archBanner : List Char :=
  "# Generated and managed by the awesome oh-my-tuna\n".toList

/-- The target Server line written by `ArchLinux.up` (line 336), including the
padding newline. -/
def archTarget : List Char :=
  "Server = https://mirrors.tuna.tsinghua.edu.cn/archlinux/$repo/os/$path\n\n".toList

/-- Embeds `ArchLinux.is_online` (lines 317-327): some mirrorlist line matches
the strict Server regex. -/
def ArchLinux.is_online (ml : List Char) : Bool :=
  (splitKeep ml).any archMatchStrict

/-- Embeds `ArchLinux.up` (lines 329-368) on the mirrorlist contents: prompt
first; on confirmation remove all matching lines and the banner, drop leading
blank lines, and write banner + target + remainder. -/
def ArchLinux.up (ml : List Char) (g : Gate) : Bool × List Char × Gate :=
  let p := promptStep g
  if !p.1 then (false, ml, p.2)
  else
    let lines := (splitKeep ml).filter (fun l => !archMatchUp l)
    let lines := lines.filter (fun l => l != archBanner)
    let lines := lines.dropWhile (fun l => l == ['\n'])
    (true, archBanner ++ archTarget ++ lines.flatten, p.2)

/-- The per-line transformation of `ArchLinux.down` (lines 384-387): comment
out every line matching the strict Server regex. -/
def archComment (l : List Char) : List Char :=
  if archMatchStrict l then '#' :: ' ' :: l else l

/-- Embeds `ArchLinux.down` (lines 370-392): prompt first; on confirmation
comment out all matching lines. -/
def ArchLinux.down (ml : List Char) (g : Gate) : Bool × List Char × Gate :=
  let p := promptStep g
  if !p.1 then (false, ml, p.2)
  else (true, ((splitKeep ml).map archComment).flatten, p.2)

/-! ## Pypi module (lines 225-301)

pip config files are handled through `configparser`, which `oh-my-tuna`
treats as an external collaborator; they are modelled structurally as a list
of sections, each a list of (option, value) pairs, in file order.
`config.write` renders "[section]" headers and "key = value" lines;
`Pypi.is_online` scans the raw rendered lines with a regex. -/

/-- Structural model of a configparser state / INI file. -/
abbrev Ini := List (String × List (String × String))

/-- configparser `has_section`. -/
def hasSection (c : Ini) (sect : String) : Bool := c.any (fun s => s.1 == sect)

/-- configparser `add_section`: appends an empty section. -/
def addSection (c : Ini) (sect : String) : Ini := c ++ [(sect, [])]

/-- Sets an option inside a section's pair list: replaces the first occurrence
of the key in place, or appends the pair. -/
def setOptInSection : List (String × String) → String → String → List (String × String)
  | [], k, v => [(k, v)]
  | o :: rest, k, v => if o.1 == k then (k, v) :: rest else o :: setOptInSection rest k v

/-- configparser `set` on an existing section (applied to every section with
that name; a parsed file has at most one). -/
def setOpt (c : Ini) (sect k v : String) : Ini :=
  c.map (fun s => if s.1 == sect then (s.1, setOptInSection s.2 k v) else s)

/-- configparser `remove_option`. -/
def removeOpt (c : Ini) (sect k : String) : Ini :=
  c.map (fun s => if s.1 == sect then (s.1, s.2.filter (fun o => o.1 != k)) else s)

/-- configparser `get`: `none` models the NoSectionError / NoOptionError that
`Pypi.down` catches. -/
def getOpt (c : Ini) (sect k : String) : Option String :=
  match c.find? (fun s => s.1 == sect) with
  | none => none
  | some s => (s.2.find? (fun o => o.1 == k)).map (fun o => o.2)

/-- Sets a list of options one after the other in a section. -/
def setMany (c : Ini) (sect : String) : List (String × String) → Ini
  | [] => c
  | o :: os => setMany (setOpt c sect o.1 o.2) sect os

/-- configparser `read` into an existing parser state: each section of the
file is merged, adding missing sections and overwriting options. -/
def mergeRead (c : Ini) : Ini → Ini
  | [] => c
  | s :: ss =>
    mergeRead (setMany (if hasSection c s.1 then c else addSection c s.1) s.1 s.2) ss

/-- One "key = value" line as rendered by configparser `write`. -/
def optLine (k v : String) : List Char :=
  k.toList ++ [' ', '=', ' '] ++ v.toList ++ ['\n']

/-- The lines rendered by configparser `write`: a "[section]" header, the
option lines, and a blank separator line per section. -/
def renderIni (c : Ini) : List (List Char) :=
  (c.map (fun s =>
    ('[' :: (s.1.toList ++ [']', '\n'])) ::
      (s.2.map (fun o => optLine o.1 o.2) ++ [['\n']]))).flatten

/-- The pip index mirror URL (line 226). -/
def Pypi.mirror_url : String := "https://pypi.tuna.tsinghua.edu.cn/simple"

/-- Embeds the `Pypi.is_online` regex (line 258):
(space)* index-url (space)* = (space)* URL, with the URL dots wildcards. -/
def pypiLineMatch (cs : List Char) : Bool :=
  (do
    let cs1 ← eatPat ['i','n','d','e','x','-','u','r','l'] (dropSpaces cs)
    let cs2 ← eatPat ['='] (dropSpaces cs1)
    let _ ← eatPat ("https://pypi.tuna.tsinghua.edu.cn/simple").toList (dropSpaces cs2)
    pure ()).isSome

/-- The two pip config files of `Pypi.config_files` (lines 232-239), in order;
`none` means the file does not exist. -/
structure PipWorld where
  file0 : Option Ini
  file1 : Option Ini
deriving DecidableEq

/-- Whether one existing config file contains a line matching the
`Pypi.is_online` regex (lines 256-267 scan the raw lines). -/
def Pypi.fileOnline : Option Ini → Bool
  | none => false
  | some f => (renderIni f).any pypiLineMatch

/-- Embeds `Pypi.is_online` (lines 256-267). -/
def Pypi.is_online (w : PipWorld) : Bool :=
  Pypi.fileOnline w.file0 || Pypi.fileOnline w.file1

/-- Embeds `Pypi.up` (lines 270-283): read the first config file into a fresh
parser, ensure a global section, set the index-url, write the file back.
No confirmation prompt is involved. -/
def Pypi.up (w : PipWorld) : Bool × PipWorld :=
  let config := mergeRead [] (w.file0.getD [])
  let config := if hasSection config "global" then config else addSection config "global"
  let config := setOpt config "global" "index-url" Pypi.mirror_url
  (true, ⟨some config, w.file1⟩)

/-- One iteration of the `Pypi.down` loop (lines 288-300) over a shared parser
state: skip missing files; read the file into the shared parser; if the global
index-url equals the mirror remove it; write the accumulated parser state back
unless `get` raised (in which case the file is left unchanged). -/
def pypiDownStep (config : Ini) : Option Ini → Ini × Option Ini
  | none => (config, none)
  | some f =>
    let c1 := mergeRead config f
    match getOpt c1 "global" "index-url" with
    | none => (c1, some f)
    | some v =>
      if v == Pypi.mirror_url then
        let c2 := removeOpt c1 "global" "index-url"
        (c2, some c2)
      else (c1, some c1)

/-- Embeds `Pypi.down` (lines 286-301). -/
def Pypi.down (w : PipWorld) : Bool × PipWorld :=
  let s0 := pypiDownStep [] w.file0
  let s1 := pypiDownStep s0.1 w.file1
  (true, ⟨s0.2, s1.2⟩)

/-- A well-formed parsed INI file: section names are distinct and option keys
are distinct within each section (configparser rejects duplicates). -/
def iniValid (c : Ini) : Prop :=
  (c.map Prod.fst).Nodup ∧ ∀ s ∈ c, (s.2.map Prod.fst).Nodup

instance (c : Ini) : Decidable (iniValid c) := by
  unfold iniValid; infer_instance

/-- Validity of an optional config file. -/
def fileValid : Option Ini → Prop
  | none => True
  | some f => iniValid f

instance (f : Option Ini) : Decidable (fileValid f) := by
  cases f <;> simp [fileValid] <;> infer_instance

/-- All (option, value) pairs of a parser state, across its sections. -/
def iniPairs (c : Ini) : List (String × String) := (c.map Prod.snd).flatten

/-- A file none of whose option pairs renders to a "key = value" line matching
the `Pypi.is_online` pattern. -/
def pypiGood (c : Ini) : Prop :=
  ∀ p, p ∈ iniPairs c → pypiLineMatch (optLine p.1 p.2) = false

/-! ## Debian / Ubuntu modules (lines 551-639) -/

/-- Python string interpolation of a possibly-None value with %s. -/
def pyStr : Option String → String
  | none => "None"
  | some s => s

/-- Embeds `build_template` (lines 565-573): one "deb"/"deb-src" pair per
mirror and repo suffix, in comprehension order, joined into one string.
`release` is the result of `sh('lsb_release -sc')`. -/
def build_template (release : Option String)
    (specs : List (String × List String)) (pools : String) : String :=
  String.join (specs.flatMap (fun ms =>
    ms.2.flatMap (fun repo =>
      ["deb", "deb-src"].map (fun t =>
        t ++ " " ++ ms.1 ++ " " ++ pyStr release ++ repo ++ " " ++ pools ++ "\n"))))

/-- The class-level data a Debian-family module carries: its mirror spec, its
default upstream spec, and its pool names. -/
structure AptVariant where
  mirrorspec : List (String × List String)
  defaults : List (String × List String)
  pools : String

/-- `Debian`'s data (lines 552-563). -/
def debianVariant : AptVariant :=
  ⟨[("https://mirrors.tuna.tsinghua.edu.cn/debian", ["", "-updates"]),
    ("https://mirrors.tuna.tsinghua.edu.cn/debian-security", ["/updates"])],
   [("http://deb.debian.org/debian", ["", "-updates"]),
    ("http://security.debian.org/debian-security", ["main", "contrib", "non-free"])],
   "main contrib non-free"⟩

/-- `Ubuntu`'s data (lines 619-627). -/
def ubuntuVariant : AptVariant :=
  ⟨[("https://mirrors.tuna.tsinghua.edu.cn/ubuntu", ["", "-updates", "-security", "-backports"])],
   [("http://archive.ubuntu.com/ubuntu", ["", "-updates", "-security", "-backports"])],
   "main multiverse universe restricted"⟩

/-- The apt world: sources.list contents, the oh-my-tuna backup file, the
`lsb_release -sc` answer, and whether the external `cp` command succeeds
(its result is ignored in `up` and checked in `down`). -/
structure AptWorld where
  sourcesList : Option String
  backup : Option String
  lsbRelease : Option String
  cpOk : Bool
deriving DecidableEq

/-- Embeds `Debian.is_online` (lines 587-591): the file is opened (raising if
missing, modelled by `Except.error`) and compared with the mirror template. -/
def Apt.is_online (v : AptVariant) (w : AptWorld) : Except Unit Bool :=
  match w.sourcesList with
  | none => .error ()
  | some content => .ok (content == build_template w.lsbRelease v.mirrorspec v.pools)

/-- Embeds `Debian.up` (lines 593-603): prompt first; on confirmation copy
sources.list to the backup (if it exists and `cp` succeeds; the result of `sh`
is ignored) and write the mirror template. -/
def Apt.up (v : AptVariant) (w : AptWorld) (g : Gate) : Bool × AptWorld × Gate :=
  let p := promptStep g
  if !p.1 then (false, w, p.2)
  else
    let w1 := if w.sourcesList.isSome && w.cpOk then { w with backup := w.sourcesList } else w
    (true, { w1 with sourcesList := some (build_template w1.lsbRelease v.mirrorspec v.pools) }, p.2)

/-- Embeds `Debian.down` (lines 605-616): prompt first; on confirmation copy
the backup back if it exists and `cp` succeeds, otherwise rebuild a default
sources.list from the class defaults. -/
def Apt.down (v : AptVariant) (w : AptWorld) (g : Gate) : Bool × AptWorld × Gate :=
  let p := promptStep g
  if !p.1 then (false, w, p.2)
  else
    match w.backup with
    | some b =>
      if w.cpOk then (true, { w with sourcesList := some b }, p.2)
      else (true, { w with sourcesList := some (build_template w.lsbRelease v.defaults v.pools) }, p.2)
    | none => (true, { w with sourcesList := some (build_template w.lsbRelease v.defaults v.pools) }, p.2)

/-! ## Homebrew module (lines 395-456) and its helpers -/

/-- The brew repo mirror remote (lines 424-427). -/
def tunaBrewGit : String := "https://mirrors.tuna.tsinghua.edu.cn/git/homebrew/brew.git"

/-- The bottle-domain value written by `Homebrew.up` (line 438). -/
def bottleDomainUrl : String := "https://mirrors.tuna.tsinghua.edu.cn/homebrew-bottles"

/-- The mirror remote for one tap (lines 432-437). -/
def tapUrl (tap : String) : String :=
  "https://mirrors.tuna.tsinghua.edu.cn/git/homebrew/" ++ tap ++ ".git"

/-- The Homebrew-relevant world: the `brew --repo` answer (`none` = brew
failed), the git remotes, which tap directories exist, the SHELL environment
variable, the in-process HOMEBREW_BOTTLE_DOMAIN variable (which editing a
profile file does not change), and the two profile files as line lists. -/
structure BrewWorld where
  repoPath : Option String
  repoRemote : Option String
  tapDirs : List String
  tapRemote : String → Option String
  shellVar : Option String
  envBottle : Option String
  profile : List String
  zprofile : List String

/-- Embeds `ask_if_change` (lines 79-95) over an abstract state: read the
current value (`none` models a failed read command); if it differs from the
expected value prompt, and on confirmation run the set command (modelled by
`apply`); otherwise report already-configured and return True. -/
def ask_if_change {σ : Type} (expected : String) (readCur : σ → Option String)
    (apply : σ → σ) (s : σ) (g : Gate) : Bool × σ × Gate :=
  if readCur s != some expected then
    let p := promptStep g
    if p.1 then (true, apply s, p.2) else (false, s, p.2)
  else (true, s, g)

/-- The basename of the SHELL environment variable, as computed by
`os.environ.get('SHELL').split('/')[-1]`; `none` models the unset variable
(on which the Python code raises). -/
def shellName (shellVar : Option String) : Option String :=
  shellVar.map (fun s => String.mk ((splitOnChar '/' s.toList).getLastD []))

/-- Embeds `set_env` (lines 107-116): append an export line to the profile
file selected by the shell basename; for unknown shells only a message is
printed.  An unset SHELL raises (modelled by `Except.error`). -/
def set_env (key value : String) (w : BrewWorld) : Except Unit BrewWorld :=
  match shellName w.shellVar with
  | none => .error ()
  | some sh0 =>
    if sh0 == "bash" || sh0 == "sh" then
      .ok { w with profile := w.profile ++ ["export " ++ key ++ "=" ++ value ++ "\n"] }
    else if sh0 == "zsh" then
      .ok { w with zprofile := w.zprofile ++ ["export " ++ key ++ "=" ++ value ++ "\n"] }
    else .ok w

/-- Embeds `remove_env` (lines 119-137): delete the matching export lines via
sed for bash/sh/zsh; for any other shell the Python code reads the unbound
local `pattern` and raises, modelled by `Except.error`. -/
def remove_env (key : String) (w : BrewWorld) : Except Unit (Bool × BrewWorld) :=
  match shellName w.shellVar with
  | none => .error ()
  | some sh0 =>
    if sh0 == "bash" || sh0 == "sh" then
      let pf := w.profile.filter (fun l => !l.startsWith ("export " ++ key ++ "="))
      .ok (true, { w with profile := pf })
    else if sh0 == "zsh" then
      let pf := w.zprofile.filter (fun l => !l.startsWith ("export " ++ key ++ "="))
      .ok (true, { w with zprofile := pf })
    else .error ()

/-- One tap iteration of `Homebrew.up` (lines 428-437): if the tap directory
exists, run `ask_if_change` on its remote.  The returned Bool is discarded by
the Python code. -/
def brewTapStep (tap : String) (wg : BrewWorld × Gate) : BrewWorld × Gate :=
  if wg.1.tapDirs.contains tap then
    let setTap := fun (w : BrewWorld) =>
      let f := fun t => if t == tap then some (tapUrl tap) else w.tapRemote t
      { w with tapRemote := f }
    let r := ask_if_change (tapUrl tap) (fun w => w.tapRemote tap) setTap wg.1 wg.2
    (r.2.1, r.2.2)
  else wg

/-- Embeds `Homebrew.up` (lines 418-439).  The results of the `ask_if_change`
sub-steps are discarded; `set_env` always runs; the function returns True
whenever it does not raise. -/
def Homebrew.up (w : BrewWorld) (g : Gate) : Except Unit (Bool × BrewWorld × Gate) :=
  match w.repoPath with
  | none => .error ()
  | some _ =>
    let r := ask_if_change tunaBrewGit (fun w => w.repoRemote)
      (fun w => { w with repoRemote := some tunaBrewGit }) w g
    let wg := brewTapStep "homebrew-science"
      (brewTapStep "homebrew-python" (brewTapStep "homebrew-core" (r.2.1, r.2.2)))
    match set_env "HOMEBREW_BOTTLE_DOMAIN" bottleDomainUrl wg.1 with
    | .error _ => .error ()
    | .ok w2 => .ok (true, w2, wg.2)

/-- Embeds `Homebrew.down` (lines 441-456): reset the repo and tap remotes to
GitHub without prompting, then `remove_env`, whose result is returned. -/
def Homebrew.down (w : BrewWorld) (g : Gate) : Except Unit (Bool × BrewWorld × Gate) :=
  match w.repoPath with
  | none => .error ()
  | some _ =>
    let w1 := { w with repoRemote := some "https://github.com/homebrew/brew.git" }
    let newTap := fun t =>
      if w1.tapDirs.contains t &&
          (t == "homebrew-core" || t == "homebrew-python" || t == "homebrew-science") then
        some ("https://github.com/homebrew/" ++ t ++ ".git")
      else w1.tapRemote t
    let w2 := { w1 with tapRemote := newTap }
    match remove_env "HOMEBREW_BOTTLE_DOMAIN" w2 with
    | .error _ => .error ()
    | .ok r => .ok (r.1, r.2, g)

/-- Embeds `Homebrew.is_online` (lines 407-415): the repo remote must be the
mirror and the in-process HOMEBREW_BOTTLE_DOMAIN variable must be set to the
bottle mirror. -/
def Homebrew.is_online (w : BrewWorld) : Except Unit Bool :=
  match w.repoPath with
  | none => .error ()
  | some _ =>
    if w.repoRemote == some tunaBrewGit then .ok (w.envBottle == some bottleDomainUrl)
    else .ok false

/-! ## Concrete test vectors used by witnesses and counterexamples -/

/-- A host with no detection signals: every command fails, no file exists. -/
def hostBarren : Host := ⟨fun _ => none, fun _ => false, true⟩

/-- An applicable module that is already online. -/
def pypiOnlineMod : ModR := ⟨"pypi", .ok true, .ok true, .ok true, .ok true⟩

/-- A module whose is_online raises (as `Anaconda.is_online` really does when
the channels command fails). -/
def condaRaiseMod : ModR := ⟨"Anaconda", .ok true, .raise, .ok true, .ok true⟩

/-- A healthy applicable offline module listed after the crashing one. -/
def debianOkMod : ModR := ⟨"Debian", .ok true, .ok false, .ok true, .ok true⟩

/-- A module with no transition support (as CTAN has no `down`). -/
def ctanMod : ModR := ⟨"CTAN", .ok true, .ok false, .notImpl, .notImpl⟩

/-- An auto-confirming gate: the always-yes flag preset by the -y option. -/
def gAuto : Gate := ⟨true, 0, fun _ => ""⟩

/-- A gate whose operator answers "n" to every prompt. -/
def gNo : Gate := ⟨false, 0, fun _ => "n"⟩

/-- A Homebrew world with a working brew, the stock GitHub remote, no taps,
bash as the login shell and an empty profile. -/
def hbW0 : BrewWorld :=
  ⟨some "/usr/local/Homebrew", some "https://github.com/homebrew/brew.git",
   [], fun _ => none, some "/bin/bash", none, [], []⟩

/-- A pip world with no config files. -/
def pipW0 : PipWorld := ⟨none, none⟩

/-- A Debian world: empty sources.list, no backup, cp works. -/
def aptW0 : AptWorld := ⟨some "", none, some "stretch", true⟩

/-- An Ubuntu world: empty sources.list, no backup, cp broken. -/
def aptU0 : AptWorld := ⟨some "", none, some "bionic", false⟩

/-! # Theorems -/

/-- Helper: with the always-yes flag set, every subsequent prompt call is
suppressed and succeeds, and the flag never clears. -/
theorem runPrompts_true (post : List String) :
    runPrompts true post = (true, post.map (fun _ => ⟨true, true, false⟩)) := by
  induction post with
  | nil => rfl
  | cons a rest ih => simp [runPrompts, user_prompt, ih]

/-- Helper: after the operator answers "a" the always-yes flag is set, no
matter what was answered before. -/
theorem runPrompts_after_a (b : Bool) (pre : List String) :
    (runPrompts b (pre ++ ["a"])).1 = true := by
  induction pre generalizing b with
  | nil => cases b <;> rfl
  | cons x rest ih =>
    simp only [List.cons_append, runPrompts]
    exact ih _

/-- C4: once the always-yes flag is set, whether preset by the -y flag or by
answering "a" at some prompt, every later `user_prompt` call returns true
without prompting, for the rest of the run. -/
theorem alwaysYes_suppresses_prompts (b : Bool) (pre post : List String) :
    ((runPrompts true post).2.all (fun o => !o.prompted && o.result)) = true ∧
    (runPrompts b (pre ++ ["a"])).1 = true ∧
    ((runPrompts (runPrompts b (pre ++ ["a"])).1 post).2.all
      (fun o => !o.prompted && o.result)) = true := by
  refine ⟨?_, runPrompts_after_a b pre, ?_⟩
  · rw [runPrompts_true]
    simp [List.all_eq_true]
  · rw [runPrompts_after_a b pre, runPrompts_true]
    simp [List.all_eq_true]

/-- C10: with the always-yes flag unset, `user_prompt` always prompts,
proceeds (returns true) for every answer other than the exact string "n" —
including the empty answer and unrecognized answers — returns false exactly on
"n", and sets the always-yes flag exactly on "a". -/
theorem user_prompt_default_yes (ans : String) :
    (user_prompt false ans).prompted = true ∧
    (user_prompt false ans).result = (ans != "n") ∧
    (user_prompt false ans).alwaysYes = (ans == "a") ∧
    (user_prompt false "").result = true ∧
    (user_prompt false "maybe").result = true ∧
    (user_prompt false "a").result = true ∧
    (user_prompt false "a").alwaysYes = true ∧
    (user_prompt false "n").result = false := by
  refine ⟨rfl, rfl, rfl, ?_, ?_, ?_, ?_, ?_⟩ <;> decide

/-- C8: the scoped working-directory change restores the original working
directory on every exit path — body success, body failure, and failure of the
entry chdir itself — provided the original directory still exists (it does:
the process was running in it). -/
theorem cd_restores_cwd {E α : Type} (dirs : String → Bool) (path : Option String)
    (body : String → Except E α × String) (cwd : String) (h : dirs cwd = true) :
    (cdScope dirs path body cwd).2 = cwd := by
  unfold cdScope
  cases path with
  | none => rfl
  | some p =>
    cases hp : dirs p
    · simp [hp]
    · simp [hp, h]

/-- Witness for C8 at a concrete world: a body that raises and leaves another
working directory behind; the scope still restores the original directory. -/
theorem cd_restores_cwd_witness :
    (cdScope (fun _ => true) (some "/usr/local/Homebrew")
      (fun c => ((Except.error () : Except Unit Nat), c ++ "/Taps")) "/root").2 = "/root" :=
  cd_restores_cwd (fun _ => true) (some "/usr/local/Homebrew")
    (fun c => ((Except.error () : Except Unit Nat), c ++ "/Taps")) "/root" rfl

/-- C2: on a host where conda itself works (`conda -V` succeeds, so
`Anaconda.is_applicable` is true) but the channels query fails (e.g. malformed
.condarc), `Anaconda.is_online` raises AttributeError on `None.split` instead
of returning false. -/
theorem anaconda_is_online_crash :
    Anaconda.is_applicable condaHost = true ∧
    Anaconda.is_online condaHost =
      .error "AttributeError: \x27NoneType\x27 object has no attribute \x27split\x27" := by
  constructor <;> rfl

/-- C1 (amended): under `up`, an applicable module that is not online gets its
activate operation invoked with success and cancellation logged; an applicable
module that is already online is skipped silently — no log line and no
already-configured report is emitted; a non-applicable module is skipped. -/
theorem up_dispatch_outcomes (m : ModR) :
    (m.applicable = .ok true → m.online = .ok false →
      (evalModule .up m).invoked = true ∧
      (m.up = .ok true → (evalModule .up m).events =
        [⟨m.name, "Activating...", .i⟩, ⟨m.name, "Mirror has been activated", .o⟩]) ∧
      (m.up = .ok false → (evalModule .up m).events =
        [⟨m.name, "Activating...", .i⟩, ⟨m.name, "Operation cancled", .w⟩])) ∧
    (m.applicable = .ok true → m.online = .ok true →
      evalModule .up m = ⟨[], false, false⟩) ∧
    (m.applicable = .ok false → evalModule .up m = ⟨[], false, false⟩) := by
  rcases m with ⟨n, a, o, u, d⟩
  refine ⟨fun h1 h2 => ?_, fun h1 h2 => ?_, fun h1 => ?_⟩
  · cases h1; cases h2
    refine ⟨?_, fun hu => ?_, fun hu => ?_⟩
    · cases u with
      | ok b => cases b <;> rfl
      | notImpl => rfl
      | raiseOther => rfl
    · cases hu; rfl
    · cases hu; rfl
  · cases h1; cases h2; rfl
  · cases h1; rfl

/-- Witness for C1 at a concrete input: an applicable, already-online module
under `up` produces no events and no activate call. -/
theorem up_dispatch_outcomes_witness :
    evalModule .up pypiOnlineMod = ⟨[], false, false⟩ :=
  (up_dispatch_outcomes pypiOnlineMod).2.1 rfl rfl

/-- C1 counterexample: for an applicable module that is already online the
`up` dispatcher prints nothing at all — there is no already-configured report
(the loop body lines 676-690 have no else branch for the online case). -/
theorem up_online_silent_cex :
    evalModule .up pypiOnlineMod = ⟨[], false, false⟩ ∧
    (evalModule .up pypiOnlineMod).events.length = 0 := ⟨rfl, rfl⟩

/-- Helper: if no module in the list raises an uncaught exception, the
dispatcher evaluates every module. -/
theorem runCmd_all_ok (c : Cmd) (ms : List ModR)
    (h : ∀ x ∈ ms, (evalModule c x).crashed = false) :
    (runCmd c ms).evaluated = ms.map ModR.name := by
  induction ms with
  | nil => rfl
  | cons m rest ih =>
    have hm := h m (List.mem_cons_self m rest)
    simp [runCmd, hm, ih (fun x hx => h x (List.mem_cons_of_mem m hx))]

/-- Helper: an uncaught exception stops the dispatcher loop at the raising
module; no later module is evaluated. -/
theorem runCmd_crash_stops (c : Cmd) (pre : List ModR) (m : ModR) (post : List ModR)
    (hpre : ∀ x ∈ pre, (evalModule c x).crashed = false)
    (hm : (evalModule c m).crashed = true) :
    (runCmd c (pre ++ m :: post)).evaluated = pre.map ModR.name ++ [m.name] := by
  induction pre with
  | nil => simp [runCmd, hm]
  | cons x rest ih =>
    have hx := hpre x (List.mem_cons_self x rest)
    simp [runCmd, hx, ih (fun y hy => hpre y (List.mem_cons_of_mem x hy))]

/-- C3 (amended): under every command, modules that merely fail through the
caught NotImplementedError signal never prevent later modules from being
evaluated, but a module that raises any other exception — from is_applicable,
is_online, or the transition call — aborts the run, so no later module is
evaluated. -/
theorem module_failure_aborts_run (c : Cmd) (pre post : List ModR) (m : ModR) :
    ((∀ x ∈ pre ++ m :: post, (evalModule c x).crashed = false) →
      (runCmd c (pre ++ m :: post)).evaluated = (pre ++ m :: post).map ModR.name) ∧
    ((∀ x ∈ pre, (evalModule c x).crashed = false) → (evalModule c m).crashed = true →
      (runCmd c (pre ++ m :: post)).evaluated = pre.map ModR.name ++ [m.name]) :=
  ⟨fun h => runCmd_all_ok c (pre ++ m :: post) h,
   fun h1 h2 => runCmd_crash_stops c pre m post h1 h2⟩

/-- Witness for C3 at concrete inputs: the run continues past a module whose
transition is merely unimplemented, and stops at a module whose online check
raises. -/
theorem module_failure_aborts_run_witness :
    ((runCmd .up ([] ++ ctanMod :: [debianOkMod])).evaluated =
      ([] ++ ctanMod :: [debianOkMod]).map ModR.name) ∧
    ((runCmd .up ([] ++ condaRaiseMod :: [debianOkMod])).evaluated =
      ([] : List ModR).map ModR.name ++ [condaRaiseMod.name]) :=
  ⟨(module_failure_aborts_run .up [] [debianOkMod] ctanMod).1
      (by intro x hx; fin_cases hx <;> rfl),
   (module_failure_aborts_run .up [] [debianOkMod] condaRaiseMod).2
      (fun x hx => absurd hx (List.not_mem_nil x)) rfl⟩

/-- C3 counterexample: a failure raised while evaluating the first module
(is_online raising, which `Anaconda.is_online` really does when the channels
command fails) aborts the run before the second module is examined. -/
theorem crash_skips_later_modules_cex :
    runCmd .up [condaRaiseMod, debianOkMod] = ⟨[], ["Anaconda"], true⟩ ∧
    debianOkMod.name ∉ (runCmd .up [condaRaiseMod, debianOkMod]).evaluated := by
  refine ⟨rfl, ?_⟩
  decide

/-- C9 (amended): a NotImplementedError from the activate operation is caught
by the dispatcher and reported with a user-visible message telling the
operator to act manually — logged at the error level 'e', not as an
informational line — and it is not fatal: the run continues with the next
module and the process still exits 0. -/
theorem notimpl_reported_and_nonfatal (m : ModR) (rest : List ModR)
    (h1 : m.applicable = .ok true) (h2 : m.online = .ok false) (h3 : m.up = .notImpl) :
    (evalModule .up m).events =
      [⟨m.name, "Activating...", .i⟩,
       ⟨m.name, "Mirror doesn\x27t support activation. Please activate manually", .e⟩] ∧
    (evalModule .up m).crashed = false ∧
    (runCmd .up (m :: rest)).evaluated = m.name :: (runCmd .up rest).evaluated ∧
    (runCmd .up (m :: rest)).crashed = (runCmd .up rest).crashed ∧
    ((runCmd .up rest).crashed = false → exitCode (runCmd .up (m :: rest)) = 0) := by
  rcases m with ⟨n, a, o, u, d⟩
  cases h1; cases h2; cases h3
  refine ⟨rfl, rfl, ?_, ?_, ?_⟩
  · simp [runCmd, evalModule]
  · simp [runCmd, evalModule]
  · intro hr
    simp [runCmd, evalModule, exitCode, hr]

/-- Witness for C9 at a concrete input: the CTAN-like module is non-fatal and
the process exits 0. -/
theorem notimpl_reported_and_nonfatal_witness :
    (evalModule .up ctanMod).crashed = false ∧ exitCode (runCmd .up [ctanMod]) = 0 :=
  ⟨(notimpl_reported_and_nonfatal ctanMod [] rfl rfl rfl).2.1,
   (notimpl_reported_and_nonfatal ctanMod [] rfl rfl rfl).2.2.2.2 rfl⟩

/-- C9 counterexample: the not-implemented report is emitted at the error
level 'e' (red), not at the informational level 'i' the claim describes. -/
theorem notimpl_level_cex :
    (evalModule .up ctanMod).events =
      [⟨"CTAN", "Activating...", .i⟩,
       ⟨"CTAN", "Mirror doesn\x27t support activation. Please activate manually", .e⟩] ∧
    (((evalModule .up ctanMod).events.map Event.level).getLast? = some .e ∧ Level.e ≠ Level.i) := by
  refine ⟨rfl, rfl, ?_⟩
  decide

/-- C7: every applicability predicate fails closed — on a host with no
detection signals (all commands fail, no files exist) every module reports
not-applicable, so the `status` command prints nothing; OS identification is
also `none` when /etc/os-release is unreadable or lists several IDs. -/
theorem applicability_fails_closed (h : Host)
    (hexec : ∀ c, h.exec c = none) (hfile : ∀ p, h.isFile p = false) :
    (MODULES.all (fun m => !(m.2 h))) = true ∧
    (∀ online, statusOutput h online = []) ∧
    get_linux_distro h = none ∧
    (∀ h2 : Host, h2.exec "cat /etc/os-release" = some "ID=arch\nID=debian" →
      get_linux_distro h2 = none) := by
  have hd : get_linux_distro h = none := by
    simp [get_linux_distro, hexec]
  have h1 : ArchLinux.is_applicable h = false := by
    simp [ArchLinux.is_applicable, hfile]
  have h2 : Homebrew.is_applicable h = false := by
    simp [Homebrew.is_applicable, hexec]
  have h3 : CTAN.is_applicable h = false := by
    simp [CTAN.is_applicable, hexec]
  have h4 : Pypi.is_applicable h = false := by
    simp [Pypi.is_applicable, hexec]
  have h5 : Anaconda.is_applicable h = false := by
    simp [Anaconda.is_applicable, hexec]
  have h6 : Debian.is_applicable h = false := by
    simp [Debian.is_applicable, hfile]
  have h7 : Ubuntu.is_applicable h = false := by
    simp [Ubuntu.is_applicable, hfile]
  refine ⟨?_, ?_, hd, ?_⟩
  · simp only [ MODULES, List.all_cons, List.all_nil]
    simp [h1, h2, h3, h4, h5, h6, h7]
  · intro online
    simp only [statusOutput, MODULES, List.foldr_cons, List.foldr_nil]
    simp [h1, h2, h3, h4, h5, h6, h7]
  · intro hh hx
    simp only [get_linux_distro, hx]
    decide

/-- Witness for C7 at a concrete barren host. -/
theorem applicability_fails_closed_witness :
    (MODULES.all (fun m => !(m.2 hostBarren))) = true ∧
    statusOutput hostBarren (fun _ => true) = [] :=
  ⟨(applicability_fails_closed hostBarren (fun _ => rfl) (fun _ => rfl)).1,
   (applicability_fails_closed hostBarren (fun _ => rfl) (fun _ => rfl)).2.1 (fun _ => true)⟩

/-- Helper: a prompt answered "n" (with the always-yes flag unset) returns
false and only advances the answer cursor. -/
theorem promptStep_no (g : Gate) (h1 : g.alwaysYes = false) (h2 : g.answers g.idx = "n") :
    promptStep g = (false, ⟨false, g.idx + 1, g.answers⟩) := by
  simp [promptStep, user_prompt, h1, h2]

/-- Helper: with the always-yes flag set, a prompt succeeds and consumes
nothing: the gate is unchanged. -/
theorem promptStep_yes (g : Gate) (h : g.alwaysYes = true) : promptStep g = (true, g) := by
  rcases g with ⟨ay, idx, ans⟩
  cases h
  simp [promptStep, user_prompt]

/-- C5 (amended): responding "n" at a transition prompt returns false with the
underlying resource untouched for ArchLinux up/down, Debian/Ubuntu up/down and
each `ask_if_change` step (hence also CTAN.up, which returns its result
directly) — but `Homebrew.up` discards the results of its `ask_if_change`
sub-steps, appends the bottle-domain export to the shell profile anyway, and
returns true, so the dispatcher reports an activation and the profile file is
mutated after the declined prompt. -/
theorem decline_leaves_state_unchanged :
    (∀ (σ : Type) (expected : String) (readCur : σ → Option String) (apply : σ → σ)
       (s : σ) (g : Gate), g.alwaysYes = false → g.answers g.idx = "n" →
       readCur s ≠ some expected →
       (ask_if_change expected readCur apply s g).1 = false ∧
       (ask_if_change expected readCur apply s g).2.1 = s) ∧
    (∀ (ml : List Char) (g : Gate), g.alwaysYes = false → g.answers g.idx = "n" →
       ArchLinux.up ml g = (false, ml, (promptStep g).2)) ∧
    (∀ (ml : List Char) (g : Gate), g.alwaysYes = false → g.answers g.idx = "n" →
       ArchLinux.down ml g = (false, ml, (promptStep g).2)) ∧
    (∀ (v : AptVariant) (w : AptWorld) (g : Gate),
       g.alwaysYes = false → g.answers g.idx = "n" →
       Apt.up v w g = (false, w, (promptStep g).2)) ∧
    (∀ (v : AptVariant) (w : AptWorld) (g : Gate),
       g.alwaysYes = false → g.answers g.idx = "n" →
       Apt.down v w g = (false, w, (promptStep g).2)) ∧
    (∀ (w : BrewWorld) (g : Gate), g.alwaysYes = false → g.answers g.idx = "n" →
       w.repoPath.isSome = true → w.repoRemote ≠ some tunaBrewGit → w.tapDirs = [] →
       shellName w.shellVar = some "bash" →
       (Homebrew.up w g).map (fun r => r.1) = .ok true ∧
       (Homebrew.up w g).map (fun r => r.2.1.profile) =
         .ok (w.profile ++ ["export HOMEBREW_BOTTLE_DOMAIN=" ++ bottleDomainUrl ++ "\n"])) := by
  have hstep : ∀ (g : Gate), g.alwaysYes = false → g.answers g.idx = "n" →
      promptStep g = (false, ⟨false, g.idx + 1, g.answers⟩) := promptStep_no
  refine ⟨?_, ?_, ?_, ?_, ?_, ?_⟩
  · intro σ expected readCur apply s g h1 h2 h3
    have hne : (readCur s != some expected) = true := bne_iff_ne.mpr h3
    unfold ask_if_change
    rw [if_pos hne, hstep g h1 h2]
    exact ⟨rfl, rfl⟩
  · intro ml g h1 h2
    unfold ArchLinux.up
    rw [hstep g h1 h2]
    rfl
  · intro ml g h1 h2
    unfold ArchLinux.down
    rw [hstep g h1 h2]
    rfl
  · intro v w g h1 h2
    unfold Apt.up
    rw [hstep g h1 h2]
    rfl
  · intro v w g h1 h2
    unfold Apt.down
    rw [hstep g h1 h2]
    rfl
  · intro w g h1 h2 h3 h4 h5 h6
    rcases hw : w.repoPath with _ | p
    · rw [hw] at h3
      simp at h3
    · have hne : (w.repoRemote != some tunaBrewGit) = true := bne_iff_ne.mpr h4
      have hask : ask_if_change tunaBrewGit (fun w => w.repoRemote)
          (fun w => { w with repoRemote := some tunaBrewGit }) w g =
          (false, w, ⟨false, g.idx + 1, g.answers⟩) := by
        unfold ask_if_change
        rw [if_pos hne, hstep g h1 h2]
        rfl
      have htap : ∀ (tap : String) (g2 : Gate), brewTapStep tap (w, g2) = (w, g2) := by
        intro tap g2
        simp [brewTapStep, h5]
      have hset : set_env "HOMEBREW_BOTTLE_DOMAIN" bottleDomainUrl w =
          .ok { w with profile :=
            w.profile ++ ["export HOMEBREW_BOTTLE_DOMAIN=" ++ bottleDomainUrl ++ "\n"] } := by
        unfold set_env
        rw [h6]
        rfl
      unfold Homebrew.up
      rw [hw]
      dsimp only
      rw [hask]
      dsimp only
      rw [htap, htap, htap, hset]
      exact ⟨rfl, rfl⟩

/-- Witness for C5 at concrete inputs: declining leaves ArchLinux and Debian
untouched with a false result, while Homebrew still returns true. -/
theorem decline_leaves_state_unchanged_witness :
    (ArchLinux.up [] gNo = (false, [], (promptStep gNo).2)) ∧
    (Apt.up debianVariant aptW0 gNo = (false, aptW0, (promptStep gNo).2)) ∧
    ((Homebrew.up hbW0 gNo).map (fun r => r.1) = .ok true) :=
  ⟨decline_leaves_state_unchanged.2.1 [] gNo rfl rfl,
   decline_leaves_state_unchanged.2.2.2.1 debianVariant aptW0 gNo rfl rfl,
   (decline_leaves_state_unchanged.2.2.2.2.2 hbW0 gNo rfl rfl rfl (by decide) rfl rfl).1⟩

/-- C5 counterexample: with the stock GitHub remote, no tap directories, bash
as the shell and an empty profile, answering "n" at the Homebrew repo prompt
still makes `Homebrew.up` append the bottle-domain export to the profile and
return True — the resource is mutated after the declined prompt and the
operation does not report cancellation. -/
theorem homebrew_up_ignores_decline_cex :
    (Homebrew.up hbW0 gNo).map (fun r => (r.1, r.2.1.profile)) =
      .ok (true,
        ["export HOMEBREW_BOTTLE_DOMAIN=https://mirrors.tuna.tsinghua.edu.cn/homebrew-bottles\n"]) ∧
    hbW0.profile = [] := by
  constructor <;> rfl

/-! ### ArchLinux round-trip lemmas -/

/-- Helper: splitting a nonempty stream yields at least one line. -/
theorem splitKeep_ne_nil (c : Char) (cs : List Char) : splitKeep (c :: cs) ≠ [] := by
  unfold splitKeep
  by_cases hc : c = '\n'
  · simp [hc]
  · simp only [if_neg hc]
    cases splitKeep cs <;> simp

/-- Helper: a line beginning with a newline splits off that newline. -/
theorem splitKeep_newline (xs : List Char) :
    splitKeep ('\n' :: xs) = ['\n'] :: splitKeep xs := by
  simp [splitKeep]

/-- Helper: the cons step of `splitKeep` for a non-newline head. -/
theorem splitKeep_cons_ne (c : Char) (cs : List Char) (hc : c ≠ '\n') :
    splitKeep (c :: cs) =
      match splitKeep cs with
      | [] => [[c]]
      | l :: ls => (c :: l) :: ls := by
  simp only [splitKeep]
  rw [if_neg hc]

/-- Helper: splitting distributes over append when the left part ends with a
newline. -/
theorem splitKeep_append : ∀ (s t : List Char), s.getLast? = some '\n' →
    splitKeep (s ++ t) = splitKeep s ++ splitKeep t
  | [], _, h => by simp at h
  | [c], t, h => by
    simp at h
    subst h
    rw [List.cons_append, List.nil_append, splitKeep_newline]
    rfl
  | c :: d :: ds, t, h => by
    have h' : (d :: ds).getLast? = some '\n' := by
      rwa [List.getLast?_cons_cons] at h
    have ih' := splitKeep_append (d :: ds) t h'
    by_cases hc : c = '\n'
    · subst hc
      rw [List.cons_append, splitKeep_newline, splitKeep_newline, ih']
      rfl
    · rw [List.cons_append, splitKeep_cons_ne c _ hc, splitKeep_cons_ne c _ hc, ih']
      cases hsk : splitKeep (d :: ds) with
      | nil => exact absurd hsk (splitKeep_ne_nil d ds)
      | cons l ls => simp

/-- Helper: a well-formed single line splits into itself. -/
theorem splitKeep_single (l : List Char) (h : goodLine l = true) : splitKeep l = [l] := by
  induction l with
  | nil => simp [goodLine] at h
  | cons c cs ih =>
    cases cs with
    | nil =>
      by_cases hc : c = '\n' <;> simp [splitKeep, hc]
    | cons d ds =>
      unfold goodLine at h
      simp at h
      obtain ⟨hc, hg⟩ := h
      unfold splitKeep
      rw [if_neg hc]
      rw [ih hg]

/-- Helper: a nonhead character extends a good line to a good line. -/
theorem goodLine_cons (c : Char) (l : List Char) (hc : c ≠ '\n') (h : goodLine l = true) :
    goodLine (c :: l) = true := by
  cases l with
  | nil => simp [goodLine] at h
  | cons d ds =>
    unfold goodLine
    simp [hc, h]

/-- Helper: a good line is nonempty. -/
theorem goodLine_ne_nil (l : List Char) (h : goodLine l = true) : l ≠ [] := by
  intro hl
  subst hl
  simp [goodLine] at h

/-- Helper: `splitKeep` produces a well-formed line decomposition. -/
theorem splitKeep_linesOk (cs : List Char) : linesOk (splitKeep cs) = true := by
  induction cs with
  | nil => rfl
  | cons c cs ih =>
    unfold splitKeep
    by_cases hc : c = '\n'
    · rw [if_pos hc]
      unfold linesOk
      simp [goodLine, ih]
    · rw [if_neg hc]
      cases hsk : splitKeep cs with
      | nil => simp [linesOk, goodLine]
      | cons l ls =>
        rw [hsk] at ih
        unfold linesOk at ih ⊢
        simp only [Bool.and_eq_true, Bool.or_eq_true] at ih
        obtain ⟨hgl, hrest, hok⟩ := ih
        have hlne := goodLine_ne_nil l hgl
        simp only [Bool.and_eq_true, Bool.or_eq_true]
        refine ⟨goodLine_cons c l hc hgl, ?_, hok⟩
        cases l with
        | nil => exact absurd rfl hlne
        | cons x xs =>
          rw [List.getLast?_cons_cons]
          exact hrest

/-- Helper: flattening a well-formed decomposition and re-splitting gives the
same lines back. -/
theorem splitKeep_flatten (ls : List (List Char)) (h : linesOk ls = true) :
    splitKeep ls.flatten = ls := by
  induction ls with
  | nil => rfl
  | cons l ms ih =>
    unfold linesOk at h
    simp only [Bool.and_eq_true, Bool.or_eq_true] at h
    obtain ⟨hgl, hrest, hok⟩ := h
    cases ms with
    | nil =>
      simp only [List.flatten_cons, List.flatten_nil, List.append_nil]
      exact splitKeep_single l hgl
    | cons m ms' =>
      have hlast : l.getLast? = some '\n' := by
        rcases hrest with hrest | hrest
        · simp at hrest
        · exact eq_of_beq hrest
      rw [List.flatten_cons, splitKeep_append l _ hlast, splitKeep_single l hgl, ih hok]
      rfl

/-- Helper: a pattern whose head is neither a wildcard nor the input head
fails immediately. -/
theorem eatPat_head_ne (p c : Char) (ps cs : List Char) (h1 : p ≠ '.') (h2 : p ≠ c) :
    eatPat (p :: ps) (c :: cs) = none := by
  have hcond : ((p == '.') || (p == c)) = false := by
    simp [h1, h2]
  simp [eatPat, hcond]

/-- Helper: the Server pattern fails on any line not starting with S. -/
theorem archServerTail_head (c : Char) (cs : List Char) (h : c ≠ 'S') :
    archServerTail (c :: cs) = false := by
  unfold archServerTail
  rw [eatPat_head_ne 'S' c _ _ (by decide) (Ne.symm h)]
  rfl

/-- Helper: a commented line never matches the strict Server regex. -/
theorem archMatchStrict_hash (cs : List Char) : archMatchStrict ('#' :: cs) = false := by
  unfold archMatchStrict
  have hd : dropSpaces ('#' :: cs) = '#' :: cs := by
    simp [dropSpaces]
  rw [hd]
  exact archServerTail_head '#' cs (by decide)

/-- Helper: after `ArchLinux.down`'s per-line transformation no line matches
the strict Server regex. -/
theorem archComment_not_strict (l : List Char) :
    archMatchStrict (archComment l) = false := by
  unfold archComment
  by_cases hs : archMatchStrict l = true
  · rw [if_pos hs]
    exact archMatchStrict_hash _
  · rw [if_neg hs]
    simpa using hs

/-- Helper: commenting preserves well-formedness of a line. -/
theorem goodLine_comment (l : List Char) (h : goodLine l = true) :
    goodLine (archComment l) = true := by
  unfold archComment
  by_cases hs : archMatchStrict l = true
  · rw [if_pos hs]
    exact goodLine_cons '#' _ (by decide) (goodLine_cons ' ' _ (by decide) h)
  · rw [if_neg hs]
    exact h

/-- Helper: commenting does not change the last character of a nonempty
line. -/
theorem getLast?_comment (l : List Char) (h : l ≠ []) :
    (archComment l).getLast? = l.getLast? := by
  unfold archComment
  by_cases hs : archMatchStrict l = true
  · rw [if_pos hs]
    cases l with
    | nil => exact absurd rfl h
    | cons x xs => rw [List.getLast?_cons_cons, List.getLast?_cons_cons]
  · rw [if_neg hs]

/-- Helper: commenting preserves well-formedness of a line decomposition. -/
theorem linesOk_map_comment (ls : List (List Char)) (h : linesOk ls = true) :
    linesOk (ls.map archComment) = true := by
  induction ls with
  | nil => rfl
  | cons l ms ih =>
    unfold linesOk at h
    simp only [Bool.and_eq_true, Bool.or_eq_true] at h
    obtain ⟨hgl, hrest, hok⟩ := h
    rw [List.map_cons]
    unfold linesOk
    simp only [Bool.and_eq_true, Bool.or_eq_true]
    refine ⟨goodLine_comment l hgl, ?_, ih hok⟩
    rcases hrest with hrest | hrest
    · left
      simpa using hrest
    · right
      rw [getLast?_comment l (goodLine_ne_nil l hgl)]
      exact hrest

/-- Helper: no commented-out decomposition has a strictly matching line. -/
theorem any_strict_map_comment (ls : List (List Char)) :
    (ls.map archComment).any archMatchStrict = false := by
  rw [List.any_map]
  apply List.any_eq_false.mpr
  intro x hx
  simp [Function.comp, archComment_not_strict]

/-- Helper: a confirmed `ArchLinux.down` always leaves the mirrorlist with no
line matching the strict Server regex, i.e. offline. -/
theorem archDown_offline (ml : List Char) (g : Gate) (hok : (promptStep g).1 = true) :
    ArchLinux.is_online (ArchLinux.down ml g).2.1 = false := by
  unfold ArchLinux.down
  dsimp only
  simp only [hok, Bool.not_true, Bool.false_eq_true, if_false]
  unfold ArchLinux.is_online
  rw [splitKeep_flatten _ (linesOk_map_comment _ (splitKeep_linesOk ml))]
  exact any_strict_map_comment _

/-- Helper: `ArchLinux.up` returns the post-prompt gate on both paths. -/
theorem archUp_gate (ml : List Char) (g : Gate) :
    (ArchLinux.up ml g).2.2 = (promptStep g).2 := by
  unfold ArchLinux.up
  dsimp only
  split <;> rfl

/-- Helper: the ArchLinux round trip under auto-confirm: up succeeds, down
succeeds, and the mirrorlist is offline again afterwards. -/
theorem arch_roundtrip (ml : List Char) (g : Gate) (hg : g.alwaysYes = true) :
    (ArchLinux.up ml g).1 = true ∧
    (ArchLinux.down (ArchLinux.up ml g).2.1 (ArchLinux.up ml g).2.2).1 = true ∧
    ArchLinux.is_online
      (ArchLinux.down (ArchLinux.up ml g).2.1 (ArchLinux.up ml g).2.2).2.1 = false := by
  have hstep := promptStep_yes g hg
  have hgate : (ArchLinux.up ml g).2.2 = (promptStep g).2 := archUp_gate ml g
  have hg2 : (ArchLinux.up ml g).2.2.alwaysYes = true := by
    rw [hgate, hstep]
    exact hg
  refine ⟨?_, ?_, ?_⟩
  · unfold ArchLinux.up
    dsimp only
    rw [hstep]
    rfl
  · unfold ArchLinux.down
    dsimp only
    rw [promptStep_yes _ hg2]
    rfl
  · exact archDown_offline _ _ (by rw [promptStep_yes _ hg2])

/-! ### Pypi round-trip lemmas -/

/-- Helper: pairs of a cons. -/
theorem iniPairs_cons (s : String × List (String × String)) (ss : Ini) :
    iniPairs (s :: ss) = s.2 ++ iniPairs ss := by
  unfold iniPairs
  rw [List.map_cons, List.flatten_cons]

/-- Helper: a section header line never matches the index-url pattern. -/
theorem pypiLineMatch_header (t : List Char) : pypiLineMatch ('[' :: t) = false := rfl

/-- Helper: a blank separator line never matches the index-url pattern. -/
theorem pypiLineMatch_blank : pypiLineMatch ['\n'] = false := rfl

/-- Helper: `any` over a mapped list, for maps that change the element type. -/
theorem any_map_general {α β : Type} (l : List α) (g : α → β) (p : β → Bool) :
    (l.map g).any p = l.any (fun x => p (g x)) := by
  induction l with
  | nil => rfl
  | cons x xs ih => simp [List.any_cons, ih]

/-- Helper: a rendered config file has a matching line exactly when one of its
option pairs renders to a matching line. -/
theorem fileOnline_pairs (c : Ini) :
    (renderIni c).any pypiLineMatch =
      (iniPairs c).any (fun p => pypiLineMatch (optLine p.1 p.2)) := by
  induction c with
  | nil => rfl
  | cons s ss ih =>
    have hr : renderIni (s :: ss) =
        (('[' :: (s.1.toList ++ [']', '\n'])) ::
          (s.2.map (fun o => optLine o.1 o.2) ++ [['\n']])) ++ renderIni ss := by
      unfold renderIni
      rw [List.map_cons, List.flatten_cons]
    rw [hr, iniPairs_cons]
    simp only [List.any_append, List.any_cons, List.any_nil,
      pypiLineMatch_header, pypiLineMatch_blank, ih]
    simp only [Bool.false_or, Bool.or_false]
    rw [any_map_general]

/-- Helper: a pair of a member section is a pair of the file. -/
theorem iniPairs_mem (c : Ini) (sec : String × List (String × String))
    (p : String × String) (hs : sec ∈ c) (hp : p ∈ sec.2) : p ∈ iniPairs c := by
  unfold iniPairs
  rw [List.mem_flatten]
  exact ⟨sec.2, List.mem_map_of_mem Prod.snd hs, hp⟩

/-- Helper: every pair of a file belongs to one of its sections. -/
theorem iniPairs_mem_elim (c : Ini) (p : String × String) (hp : p ∈ iniPairs c) :
    ∃ sec, sec ∈ c ∧ p ∈ sec.2 := by
  unfold iniPairs at hp
  rw [List.mem_flatten] at hp
  obtain ⟨l, hl, hpl⟩ := hp
  rw [List.mem_map] at hl
  obtain ⟨sec, hsec, rfl⟩ := hl
  exact ⟨sec, hsec, hpl⟩

/-- Helper: setting an option only adds the new pair. -/
theorem setOptInSection_mem (os : List (String × String)) (k v : String)
    (p : String × String) (hp : p ∈ setOptInSection os k v) :
    p = (k, v) ∨ p ∈ os := by
  induction os with
  | nil =>
    unfold setOptInSection at hp
    simp at hp
    exact Or.inl hp
  | cons o rest ih =>
    unfold setOptInSection at hp
    by_cases ho : (o.1 == k) = true
    · rw [if_pos ho] at hp
      rcases List.mem_cons.mp hp with h | h
      · exact Or.inl h
      · exact Or.inr (List.mem_cons_of_mem o h)
    · rw [if_neg ho] at hp
      rcases List.mem_cons.mp hp with h | h
      · refine Or.inr ?_
        rw [h]
        exact List.mem_cons_self o rest
      · rcases ih h with h' | h'
        · exact Or.inl h'
        · exact Or.inr (List.mem_cons_of_mem o h')

/-- Helper: after setting an option, looking it up finds the new value. -/
theorem setOptInSection_find (os : List (String × String)) (k v : String) :
    (setOptInSection os k v).find? (fun o => o.1 == k) = some (k, v) := by
  induction os with
  | nil =>
    unfold setOptInSection
    rw [List.find?_cons_of_pos _ (by simp)]
  | cons o rest ih =>
    unfold setOptInSection
    by_cases ho : (o.1 == k) = true
    · rw [if_pos ho]
      rw [List.find?_cons_of_pos _ (by simp)]
    · rw [if_neg ho]
      rw [List.find?_cons_of_neg _ (by simpa using ho), ih]

/-- Helper: setting an absent key appends the pair. -/
theorem setOptInSection_append_new (os : List (String × String)) (k v : String)
    (hk : k ∉ os.map Prod.fst) :
    setOptInSection os k v = os ++ [(k, v)] := by
  induction os with
  | nil => rfl
  | cons o rest ih =>
    have ho : ¬((o.1 == k) = true) := by
      intro hb
      exact hk (List.mem_cons.mpr (Or.inl (eq_of_beq hb).symm))
    unfold setOptInSection
    rw [if_neg ho]
    rw [ih (fun hm => hk (List.mem_cons_of_mem _ hm))]
    rfl

/-- Helper: keys after a set are the old keys plus possibly the new one. -/
theorem setOptInSection_keys_mem (os : List (String × String)) (k v x : String)
    (hx : x ∈ (setOptInSection os k v).map Prod.fst) :
    x ∈ os.map Prod.fst ∨ x = k := by
  rw [List.mem_map] at hx
  obtain ⟨p, hp, rfl⟩ := hx
  rcases setOptInSection_mem os k v p hp with h | h
  · right
    rw [h]
  · left
    exact List.mem_map_of_mem Prod.fst h

/-- Helper: setting an option preserves distinct keys. -/
theorem setOptInSection_keys_nodup (os : List (String × String)) (k v : String)
    (h : (os.map Prod.fst).Nodup) :
    ((setOptInSection os k v).map Prod.fst).Nodup := by
  induction os with
  | nil => simp [setOptInSection]
  | cons o rest ih =>
    rw [List.map_cons, List.nodup_cons] at h
    obtain ⟨hno, hnd⟩ := h
    unfold setOptInSection
    by_cases ho : (o.1 == k) = true
    · rw [if_pos ho]
      rw [List.map_cons, List.nodup_cons]
      exact ⟨(eq_of_beq ho) ▸ hno, hnd⟩
    · rw [if_neg ho]
      rw [List.map_cons, List.nodup_cons]
      refine ⟨?_, ih hnd⟩
      intro hmem
      rcases setOptInSection_keys_mem rest k v o.1 hmem with h' | h'
      · exact hno h'
      · exact ho (by rw [h']; simp)

/-- Helper: setting an option does not change the section names. -/
theorem setOpt_names (c : Ini) (s k v : String) :
    (setOpt c s k v).map Prod.fst = c.map Prod.fst := by
  unfold setOpt
  rw [List.map_map]
  apply List.map_congr_left
  intro t _
  by_cases hts : (t.1 == s) = true
  · simp [Function.comp, hts]
  · simp [Function.comp, hts]

/-- Helper: sections after a set are either untouched sections of other names
or the transformed sections of the target name. -/
theorem setOpt_sections (c : Ini) (s k v : String)
    (sec : String × List (String × String)) (h : sec ∈ setOpt c s k v) :
    (sec ∈ c ∧ (sec.1 == s) = false) ∨
    (∃ t, t ∈ c ∧ (t.1 == s) = true ∧ sec = (t.1, setOptInSection t.2 k v)) := by
  unfold setOpt at h
  rw [List.mem_map] at h
  obtain ⟨t, ht, heq⟩ := h
  by_cases hts : (t.1 == s) = true
  · right
    refine ⟨t, ht, hts, ?_⟩
    rw [← heq, if_pos hts]
  · left
    rw [← heq, if_neg hts]
    exact ⟨ht, by simpa using hts⟩

/-- Helper: setting an option preserves validity. -/
theorem setOpt_valid (c : Ini) (s k v : String) (h : iniValid c) :
    iniValid (setOpt c s k v) := by
  obtain ⟨h1, h2⟩ := h
  constructor
  · rw [setOpt_names]
    exact h1
  · intro t ht
    rcases setOpt_sections c s k v t ht with ⟨ht', _⟩ | ⟨u, hu, _, rfl⟩
    · exact h2 t ht'
    · exact setOptInSection_keys_nodup u.2 k v (h2 u hu)

/-- Helper: an absent section name means each section has a different name. -/
theorem hasSection_names (c : Ini) (n : String) (h : hasSection c n = false) :
    ∀ t, t ∈ c → (t.1 == n) = false := by
  intro t ht
  by_cases hb : (t.1 == n) = true
  · have hc : hasSection c n = true := by
      unfold hasSection
      exact List.any_eq_true.mpr ⟨t, ht, hb⟩
    rw [hc] at h
    cases h
  · simpa using hb

/-- Helper: setting an option in a file with no section of that name is a
no-op. -/
theorem setOpt_skip (c : Ini) (n k v : String)
    (h : ∀ t, t ∈ c → (t.1 == n) = false) :
    setOpt c n k v = c := by
  induction c with
  | nil => rfl
  | cons t ts ih =>
    unfold setOpt
    rw [List.map_cons]
    rw [if_neg (by simp [h t (List.mem_cons_self t ts)])]
    have hts := ih (fun u hu => h u (List.mem_cons_of_mem t hu))
    unfold setOpt at hts
    rw [hts]

/-- Helper: setting an option into a freshly appended section only touches
that section. -/
theorem setOpt_append_fresh (c : Ini) (n : String) (os : List (String × String))
    (k v : String) (hc : hasSection c n = false) :
    setOpt (c ++ [(n, os)]) n k v = c ++ [(n, setOptInSection os k v)] := by
  unfold setOpt
  rw [List.map_append]
  have h1 : c.map (fun sec =>
      if sec.1 == n then (sec.1, setOptInSection sec.2 k v) else sec) = c := by
    have hs := setOpt_skip c n k v (hasSection_names c n hc)
    unfold setOpt at hs
    exact hs
  rw [h1]
  congr 1
  simp

/-- Helper: setting a nodup option list into a freshly appended section
appends the options in order. -/
theorem setMany_append_fresh (c : Ini) (n : String) :
    ∀ (opts os : List (String × String)), hasSection c n = false →
    ((os ++ opts).map Prod.fst).Nodup →
    setMany (c ++ [(n, os)]) n opts = c ++ [(n, os ++ opts)]
  | [], os, _, _ => by simp [setMany]
  | o :: os', os, hc, h => by
    unfold setMany
    rw [setOpt_append_fresh c n os o.1 o.2 hc]
    have hk : o.1 ∉ os.map Prod.fst := by
      rw [List.map_append] at h
      have hd := List.disjoint_of_nodup_append h
      intro hmem
      exact hd hmem (by simp)
    rw [setOptInSection_append_new os o.1 o.2 hk]
    have h' : (((os ++ [o]) ++ os').map Prod.fst).Nodup := by
      rw [List.append_assoc]
      simpa using h
    have hrec := setMany_append_fresh c n os' (os ++ [o]) hc h'
    rw [hrec, List.append_assoc]
    rfl

/-- Helper: reading a valid file into a parser with disjoint section names
appends the file. -/
theorem mergeRead_disjoint (f : Ini) : ∀ (c : Ini),
    (∀ s, s ∈ f → hasSection c s.1 = false) →
    (f.map Prod.fst).Nodup →
    (∀ s, s ∈ f → (s.2.map Prod.fst).Nodup) →
    mergeRead c f = c ++ f := by
  induction f with
  | nil =>
    intro c _ _ _
    simp [mergeRead]
  | cons s ss ih =>
    intro c h1 h2 h3
    unfold mergeRead
    rw [if_neg (by simp [h1 s (List.mem_cons_self s ss)])]
    have hsm := setMany_append_fresh c s.1 s.2 [] (h1 s (List.mem_cons_self s ss))
      (by simpa using h3 s (List.mem_cons_self s ss))
    rw [show addSection c s.1 = c ++ [(s.1, [])] from rfl, hsm, List.nil_append]
    rw [List.map_cons, List.nodup_cons] at h2
    obtain ⟨hnotin, h2'⟩ := h2
    have h1' : ∀ t, t ∈ ss → hasSection (c ++ [(s.1, s.2)]) t.1 = false := by
      intro t ht
      unfold hasSection
      rw [List.any_append]
      have ha : c.any (fun x => x.1 == t.1) = false := by
        have hg := h1 t (List.mem_cons_of_mem s ht)
        unfold hasSection at hg
        exact hg
      rw [ha]
      have hb : (s.1 == t.1) = false := by
        by_cases hsb : (s.1 == t.1) = true
        · exact absurd (by rw [eq_of_beq hsb]; exact List.mem_map_of_mem Prod.fst ht) hnotin
        · simpa using hsb
      simp [hb]
    have hrec := ih (c ++ [(s.1, s.2)]) h1' h2'
      (fun t ht => h3 t (List.mem_cons_of_mem s ht))
    rw [hrec, List.append_assoc]
    rfl

/-- Helper: after setting an option in an existing section, the parser reads
it back. -/
theorem getOpt_setOpt (c : Ini) (s k v : String) (hs : hasSection c s = true) :
    getOpt (setOpt c s k v) s k = some v := by
  induction c with
  | nil => simp [hasSection] at hs
  | cons t ts ih =>
    unfold setOpt getOpt
    rw [List.map_cons]
    by_cases ht : (t.1 == s) = true
    · rw [if_pos ht]
      rw [List.find?_cons_of_pos _ (by simpa using ht)]
      simp [setOptInSection_find]
    · rw [if_neg ht]
      rw [List.find?_cons_of_neg _ (by simpa using ht)]
      have hs' : hasSection ts s = true := by
        unfold hasSection at hs ⊢
        rw [List.any_cons] at hs
        have htf : (t.1 == s) = false := by simpa using ht
        rw [htf] at hs
        simpa using hs
      have hrec := ih hs'
      unfold setOpt getOpt at hrec
      exact hrec

/-- Helper: sections after a remove are either untouched sections of other
names or filtered sections of the target name. -/
theorem removeOpt_sections (c : Ini) (s k : String)
    (sec : String × List (String × String)) (h : sec ∈ removeOpt c s k) :
    (sec ∈ c ∧ (sec.1 == s) = false) ∨
    (∃ t, t ∈ c ∧ (t.1 == s) = true ∧ sec = (t.1, t.2.filter (fun o => o.1 != k))) := by
  unfold removeOpt at h
  rw [List.mem_map] at h
  obtain ⟨t, ht, heq⟩ := h
  by_cases hts : (t.1 == s) = true
  · right
    refine ⟨t, ht, hts, ?_⟩
    rw [← heq, if_pos hts]
  · left
    rw [← heq, if_neg hts]
    exact ⟨ht, by simpa using hts⟩

/-- Helper: every pair surviving a remove comes from the original file, and in
target-named sections its key differs from the removed key. -/
theorem removeOpt_pairs (c : Ini) (s k : String) (p : String × String)
    (hp : p ∈ iniPairs (removeOpt c s k)) :
    ∃ sec, sec ∈ c ∧ p ∈ sec.2 ∧ ((sec.1 == s) = true → (p.1 == k) = false) := by
  obtain ⟨sec', hsec', hp'⟩ := iniPairs_mem_elim _ p hp
  rcases removeOpt_sections c s k sec' hsec' with ⟨hin, hne⟩ | ⟨t, ht, hts, heq⟩
  · exact ⟨sec', hin, hp', fun hc => absurd hc (by simp [hne])⟩
  · rw [heq] at hp'
    have hmf := List.mem_filter.mp hp'
    exact ⟨t, ht, hmf.1, fun _ => by simpa using hmf.2⟩

/-- Helper: pairs after a set are old pairs or the new pair. -/
theorem setOpt_pairs (c : Ini) (s k v : String) (p : String × String)
    (hp : p ∈ iniPairs (setOpt c s k v)) :
    p = (k, v) ∨ p ∈ iniPairs c := by
  obtain ⟨sec, hsec, hp'⟩ := iniPairs_mem_elim _ p hp
  rcases setOpt_sections c s k v sec hsec with ⟨hin, _⟩ | ⟨t, ht, _, heq⟩
  · exact Or.inr (iniPairs_mem c sec p hin hp')
  · rw [heq] at hp'
    rcases setOptInSection_mem t.2 k v p hp' with h | h
    · exact Or.inl h
    · exact Or.inr (iniPairs_mem c t p ht h)

/-- Helper: adding an empty section adds no pairs. -/
theorem addSection_pairs (c : Ini) (n : String) :
    iniPairs (addSection c n) = iniPairs c := by
  unfold addSection iniPairs
  rw [List.map_append, List.flatten_append]
  simp

/-- Helper: pairs after setting a list of options are old pairs or set
pairs. -/
theorem setMany_pairs (n : String) : ∀ (opts : List (String × String)) (c : Ini)
    (p : String × String), p ∈ iniPairs (setMany c n opts) →
    p ∈ iniPairs c ∨ p ∈ opts
  | [], _, _, hp => Or.inl hp
  | o :: os, c, p, hp => by
    unfold setMany at hp
    rcases setMany_pairs n os (setOpt c n o.1 o.2) p hp with h | h
    · rcases setOpt_pairs c n o.1 o.2 p h with h' | h'
      · right
        rw [h']
        exact List.mem_cons_self o os
      · exact Or.inl h'
    · exact Or.inr (List.mem_cons_of_mem o h)

/-- Helper: pairs after a parser read come from the parser or the file. -/
theorem mergeRead_pairs : ∀ (f c : Ini) (p : String × String),
    p ∈ iniPairs (mergeRead c f) → p ∈ iniPairs c ∨ p ∈ iniPairs f
  | [], _, _, hp => Or.inl hp
  | s :: ss, c, p, hp => by
    unfold mergeRead at hp
    rcases mergeRead_pairs ss _ p hp with h | h
    · rcases setMany_pairs s.1 s.2 _ p h with h' | h'
      · by_cases hc : hasSection c s.1 = true
        · rw [if_pos hc] at h'
          exact Or.inl h'
        · rw [if_neg hc, addSection_pairs] at h'
          exact Or.inl h'
      · right
        rw [iniPairs_cons]
        exact List.mem_append.mpr (Or.inl h')
    · right
      rw [iniPairs_cons]
      exact List.mem_append.mpr (Or.inr h)

/-- Helper: the empty parser state is valid. -/
theorem iniValid_nil : iniValid ([] : Ini) := by
  constructor
  · simp
  · intro s hs
    cases hs

/-- Helper: adding a fresh section preserves validity. -/
theorem addSection_valid (c : Ini) (n : String) (h : iniValid c)
    (hn : hasSection c n = false) : iniValid (addSection c n) := by
  obtain ⟨h1, h2⟩ := h
  constructor
  · unfold addSection
    rw [List.map_append, List.nodup_append]
    refine ⟨h1, by simp, ?_⟩
    intro x hx hxmem
    simp at hxmem
    rw [List.mem_map] at hx
    obtain ⟨t, ht, htx⟩ := hx
    have hb := hasSection_names c n hn t ht
    rw [htx, hxmem] at hb
    simp at hb
  · intro s hs
    rcases List.mem_append.mp hs with h' | h'
    · exact h2 s h'
    · simp at h'
      rw [h']
      simp

/-- Helper: a good file reports offline. -/
theorem fileOnline_false_of_good (c : Ini) (h : pypiGood c) :
    Pypi.fileOnline (some c) = false := by
  show (renderIni c).any pypiLineMatch = false
  rw [fileOnline_pairs]
  exact List.any_eq_false.mpr (fun p hp => by simp [h p hp])

/-- Helper: an offline file is good. -/
theorem good_of_fileOnline_false (c : Ini) (h : Pypi.fileOnline (some c) = false) :
    pypiGood c := by
  have h2 : (renderIni c).any pypiLineMatch = false := h
  rw [fileOnline_pairs] at h2
  intro p hp
  have hx := List.any_eq_false.mp h2 p hp
  simpa using hx

/-- Helper: the Pypi round trip from a valid offline world: up succeeds, down
succeeds, and both config files are offline again afterwards. -/
theorem pypi_roundtrip (w : PipWorld) (hv : fileValid w.file0)
    (hoff : Pypi.is_online w = false) :
    (Pypi.up w).1 = true ∧ (Pypi.down (Pypi.up w).2).1 = true ∧
    Pypi.is_online (Pypi.down (Pypi.up w).2).2 = false := by
  obtain ⟨hoff0, hoff1⟩ : Pypi.fileOnline w.file0 = false ∧ Pypi.fileOnline w.file1 = false := by
    unfold Pypi.is_online at hoff
    exact Bool.or_eq_false_iff.mp hoff
  set f0 : Ini := w.file0.getD [] with hf0
  have hvf0 : iniValid f0 := by
    rcases hw : w.file0 with _ | f
    · rw [hf0, hw]
      exact iniValid_nil
    · rw [hf0, hw]
      rw [hw] at hv
      exact hv
  have hgood0 : pypiGood f0 := by
    rcases hw : w.file0 with _ | f
    · rw [hf0, hw]
      intro p hp
      cases hp
    · rw [hf0, hw]
      rw [hw] at hoff0
      exact good_of_fileOnline_false f hoff0
  have hmr : mergeRead [] f0 = f0 := by
    simpa using mergeRead_disjoint f0 [] (fun s _ => rfl) hvf0.1 hvf0.2
  set ens : Ini := if hasSection f0 "global" then f0 else addSection f0 "global" with hens
  set cfg : Ini := setOpt ens "global" "index-url" Pypi.mirror_url with hcfg
  have hup : Pypi.up w = (true, ⟨some cfg, w.file1⟩) := by
    unfold Pypi.up
    dsimp only
    rw [← hf0, hmr, ← hens, ← hcfg]
  have hensSec : hasSection ens "global" = true := by
    rw [hens]
    by_cases hg : hasSection f0 "global" = true
    · rw [if_pos hg]
      exact hg
    · rw [if_neg hg]
      unfold hasSection addSection
      rw [List.any_append]
      simp
  have hensValid : iniValid ens := by
    rw [hens]
    by_cases hg : hasSection f0 "global" = true
    · rw [if_pos hg]
      exact hvf0
    · rw [if_neg hg]
      exact addSection_valid f0 "global" hvf0 (by simpa using hg)
  have hens_sections : ∀ t, t ∈ ens → t ∈ f0 ∨ t = ("global", ([] : List (String × String))) := by
    intro t ht
    rw [hens] at ht
    by_cases hg : hasSection f0 "global" = true
    · rw [if_pos hg] at ht
      exact Or.inl ht
    · rw [if_neg hg] at ht
      unfold addSection at ht
      rcases List.mem_append.mp ht with h | h
      · exact Or.inl h
      · right
        simpa using h
  have hcfgValid : iniValid cfg := by
    rw [hcfg]
    exact setOpt_valid ens _ _ _ hensValid
  have hmr2 : mergeRead [] cfg = cfg := by
    simpa using mergeRead_disjoint cfg [] (fun s _ => rfl) hcfgValid.1 hcfgValid.2
  have hget : getOpt cfg "global" "index-url" = some Pypi.mirror_url := by
    rw [hcfg]
    exact getOpt_setOpt ens _ _ _ hensSec
  set c2 : Ini := removeOpt cfg "global" "index-url" with hc2
  have hgood2 : pypiGood c2 := by
    intro p hp
    rw [hc2] at hp
    obtain ⟨sec, hsec, hpsec, himp⟩ := removeOpt_pairs cfg "global" "index-url" p hp
    rw [hcfg] at hsec
    rcases setOpt_sections ens "global" "index-url" Pypi.mirror_url sec hsec with
      ⟨hin, hne⟩ | ⟨t, ht, hts, heq⟩
    · rcases hens_sections sec hin with hf | hgl
      · exact hgood0 p (iniPairs_mem f0 sec p hf hpsec)
      · rw [hgl] at hne
        simp at hne
    · have hpk : (p.1 == "index-url") = false := by
        apply himp
        rw [heq]
        simpa using hts
      have hpsec' : p ∈ setOptInSection t.2 "index-url" Pypi.mirror_url := by
        rw [heq] at hpsec
        exact hpsec
      rcases setOptInSection_mem t.2 "index-url" Pypi.mirror_url p hpsec' with hkv | hto
      · rw [hkv] at hpk
        simp at hpk
      · rcases hens_sections t ht with hf | hgl
        · exact hgood0 p (iniPairs_mem f0 t p hf hto)
        · rw [hgl] at hto
          exact absurd hto (List.not_mem_nil p)
  have hstep0 : pypiDownStep [] (some cfg) = (c2, some c2) := by
    unfold pypiDownStep
    dsimp only
    rw [hmr2, hget]
    dsimp only
    rw [if_pos (by simp), ← hc2]
  have hfinal1 : Pypi.fileOnline (pypiDownStep c2 w.file1).2 = false := by
    rcases hw1 : w.file1 with _ | f1
    · rfl
    · rw [hw1] at hoff1
      have hgood1 : pypiGood f1 := good_of_fileOnline_false f1 hoff1
      have hgood3 : pypiGood (mergeRead c2 f1) := by
        intro p hp
        rcases mergeRead_pairs f1 c2 p hp with h | h
        · exact hgood2 p h
        · exact hgood1 p h
      unfold pypiDownStep
      dsimp only
      cases hg : getOpt (mergeRead c2 f1) "global" "index-url" with
      | none => exact fileOnline_false_of_good f1 hgood1
      | some v =>
        dsimp only
        by_cases hvm : (v == Pypi.mirror_url) = true
        · rw [if_pos hvm]
          apply fileOnline_false_of_good
          intro p hp
          obtain ⟨sec, hsec, hpsec, _⟩ :=
            removeOpt_pairs (mergeRead c2 f1) "global" "index-url" p hp
          exact hgood3 p (iniPairs_mem _ sec p hsec hpsec)
        · rw [if_neg hvm]
          exact fileOnline_false_of_good _ hgood3
  refine ⟨by rw [hup], ?_, ?_⟩
  · rw [hup]
    rfl
  · rw [hup]
    unfold Pypi.down
    dsimp only
    rw [hstep0]
    dsimp only
    unfold Pypi.is_online
    dsimp only
    rw [fileOnline_false_of_good c2 hgood2, hfinal1]
    rfl

/-! ### Debian/Ubuntu round-trip lemmas -/

/-- Helper: the characters of a joined string list. -/
theorem join_data (l : List String) :
    (String.join l).data = (l.map String.data).flatten := by
  have haux : ∀ (l2 : List String) (s : String),
      (l2.foldl (fun a b => a ++ b) s).data = s.data ++ (l2.map String.data).flatten := by
    intro l2
    induction l2 with
    | nil =>
      intro s
      simp
    | cons x xs ih =>
      intro s
      rw [List.foldl_cons, ih (s ++ x), String.data_append]
      simp [List.append_assoc]
  have hj := haux l ""
  simpa [String.join] using hj

/-- Helper: the first nine characters of a sources.list template are the first
nine characters of its first line's "deb mirror" prefix, independent of the
release string. -/
theorem template_take (t m r2 repo pools : String) (rest : List String)
    (h : 9 ≤ (t ++ " " ++ m).length) :
    (String.join ((t ++ " " ++ m ++ " " ++ r2 ++ repo ++ " " ++ pools ++ "\n") :: rest)).data.take 9 =
      (t ++ " " ++ m).data.take 9 := by
  rw [join_data, List.map_cons, List.flatten_cons]
  have hline : (t ++ " " ++ m ++ " " ++ r2 ++ repo ++ " " ++ pools ++ "\n").data =
      (t ++ " " ++ m).data ++ (" " ++ r2 ++ repo ++ " " ++ pools ++ "\n").data := by
    simp [String.data_append, List.append_assoc]
  rw [hline, List.append_assoc, List.take_append_of_le_length]
  exact h

/-- Helper: the Debian default template never equals the Debian mirror
template, whatever `lsb_release` answered. -/
theorem debian_tmpl_ne (r : Option String) :
    (build_template r debianVariant.defaults debianVariant.pools ==
      build_template r debianVariant.mirrorspec debianVariant.pools) = false := by
  rw [beq_eq_false_iff_ne]
  intro h
  simp only [build_template, debianVariant, List.flatMap_cons, List.flatMap_nil,
    List.map_cons, List.map_nil, List.append_nil, List.cons_append, List.nil_append] at h
  have hd := congrArg (fun s : String => s.data.take 9) h
  simp only at hd
  rw [template_take "deb" "http://deb.debian.org/debian" (pyStr r) ""
    "main contrib non-free" _ (by decide)] at hd
  rw [template_take "deb" "https://mirrors.tuna.tsinghua.edu.cn/debian" (pyStr r) ""
    "main contrib non-free" _ (by decide)] at hd
  exact absurd hd (by decide)

/-- Helper: the Ubuntu default template never equals the Ubuntu mirror
template, whatever `lsb_release` answered. -/
theorem ubuntu_tmpl_ne (r : Option String) :
    (build_template r ubuntuVariant.defaults ubuntuVariant.pools ==
      build_template r ubuntuVariant.mirrorspec ubuntuVariant.pools) = false := by
  rw [beq_eq_false_iff_ne]
  intro h
  simp only [build_template, ubuntuVariant, List.flatMap_cons, List.flatMap_nil,
    List.map_cons, List.map_nil, List.append_nil, List.cons_append, List.nil_append] at h
  have hd := congrArg (fun s : String => s.data.take 9) h
  simp only at hd
  rw [template_take "deb" "http://archive.ubuntu.com/ubuntu" (pyStr r) ""
    "main multiverse universe restricted" _ (by decide)] at hd
  rw [template_take "deb" "https://mirrors.tuna.tsinghua.edu.cn/ubuntu" (pyStr r) ""
    "main multiverse universe restricted" _ (by decide)] at hd
  exact absurd hd (by decide)

/-- Helper: the Debian-family round trip under auto-confirm: up succeeds,
down succeeds, and sources.list differs from the mirror template again —
whether the backup copy was restored or the default template rebuilt. -/
theorem apt_roundtrip (v : AptVariant) (w : AptWorld) (g : Gate)
    (hg : g.alwaysYes = true) (hs : w.sourcesList.isSome = true)
    (hoff : Apt.is_online v w = .ok false)
    (htmpl : ∀ r : Option String,
      (build_template r v.defaults v.pools == build_template r v.mirrorspec v.pools) = false) :
    (Apt.up v w g).1 = true ∧
    (Apt.down v (Apt.up v w g).2.1 (Apt.up v w g).2.2).1 = true ∧
    Apt.is_online v
      (Apt.down v (Apt.up v w g).2.1 (Apt.up v w g).2.2).2.1 = .ok false := by
  have hps := promptStep_yes g hg
  obtain ⟨sl, bk, rel, cp⟩ := w
  rcases sl with _ | c
  · simp at hs
  · have hoffc : (c == build_template rel v.mirrorspec v.pools) = false := by
      have h2 : (Except.ok (c == build_template rel v.mirrorspec v.pools) :
          Except Unit Bool) = .ok false := hoff
      simpa using h2
    cases cp with
    | true =>
      have hup : Apt.up v ⟨some c, bk, rel, true⟩ g =
          (true, ⟨some (build_template rel v.mirrorspec v.pools), some c, rel, true⟩, g) := by
        unfold Apt.up
        rw [hps]
        rfl
      have hdown : Apt.down v
          ⟨some (build_template rel v.mirrorspec v.pools), some c, rel, true⟩ g =
          (true, ⟨some c, some c, rel, true⟩, g) := by
        unfold Apt.down
        rw [hps]
        rfl
      rw [hup, hdown]
      refine ⟨rfl, rfl, ?_⟩
      show (Except.ok (c == build_template rel v.mirrorspec v.pools) :
          Except Unit Bool) = .ok false
      rw [hoffc]
    | false =>
      have hup : Apt.up v ⟨some c, bk, rel, false⟩ g =
          (true, ⟨some (build_template rel v.mirrorspec v.pools), bk, rel, false⟩, g) := by
        unfold Apt.up
        rw [hps]
        rfl
      rw [hup]
      cases bk with
      | none =>
        have hdown : Apt.down v
            ⟨some (build_template rel v.mirrorspec v.pools), none, rel, false⟩ g =
            (true, ⟨some (build_template rel v.defaults v.pools), none, rel, false⟩, g) := by
          unfold Apt.down
          rw [hps]
          rfl
        rw [hdown]
        refine ⟨rfl, rfl, ?_⟩
        show (Except.ok (build_template rel v.defaults v.pools ==
            build_template rel v.mirrorspec v.pools) : Except Unit Bool) = .ok false
        rw [htmpl rel]
      | some b =>
        have hdown : Apt.down v
            ⟨some (build_template rel v.mirrorspec v.pools), some b, rel, false⟩ g =
            (true, ⟨some (build_template rel v.defaults v.pools), some b, rel, false⟩, g) := by
          unfold Apt.down
          rw [hps]
          rfl
        rw [hdown]
        refine ⟨rfl, rfl, ?_⟩
        show (Except.ok (build_template rel v.defaults v.pools ==
            build_template rel v.mirrorspec v.pools) : Except Unit Bool) = .ok false
        rw [htmpl rel]

/-! ### Homebrew round-trip lemmas -/

/-- Helper: one tap step of `Homebrew.up` under auto-confirm preserves the
repo path, the repo remote, the shell variable, the profile, and the gate:
only the tap remotes can change. -/
theorem brewTapStep_keeps (tap : String) (wg : BrewWorld × Gate)
    (hg2 : wg.2.alwaysYes = true) :
    (brewTapStep tap wg).1.repoPath = wg.1.repoPath ∧
    (brewTapStep tap wg).1.repoRemote = wg.1.repoRemote ∧
    (brewTapStep tap wg).1.shellVar = wg.1.shellVar ∧
    (brewTapStep tap wg).1.profile = wg.1.profile ∧
    (brewTapStep tap wg).2 = wg.2 := by
  unfold brewTapStep
  by_cases ht : wg.1.tapDirs.contains tap = true
  · rw [if_pos ht]
    dsimp only
    unfold ask_if_change
    by_cases hr : (wg.1.tapRemote tap != some (tapUrl tap)) = true
    · rw [if_pos hr, promptStep_yes wg.2 hg2]
      exact ⟨rfl, rfl, rfl, rfl, rfl⟩
    · rw [if_neg hr]
      exact ⟨rfl, rfl, rfl, rfl, rfl⟩
  · rw [if_neg ht]
    exact ⟨rfl, rfl, rfl, rfl, rfl⟩

/-- Helper: the three-tap chain of `Homebrew.up` under auto-confirm preserves
repo path, shell variable, and the gate. -/
theorem brewChain_keeps (wg : BrewWorld × Gate) (hg2 : wg.2.alwaysYes = true) :
    (brewTapStep "homebrew-science" (brewTapStep "homebrew-python"
      (brewTapStep "homebrew-core" wg))).1.repoPath = wg.1.repoPath ∧
    (brewTapStep "homebrew-science" (brewTapStep "homebrew-python"
      (brewTapStep "homebrew-core" wg))).1.shellVar = wg.1.shellVar ∧
    (brewTapStep "homebrew-science" (brewTapStep "homebrew-python"
      (brewTapStep "homebrew-core" wg))).2 = wg.2 := by
  have hk1 := brewTapStep_keeps "homebrew-core" wg hg2
  have hg1 : (brewTapStep "homebrew-core" wg).2.alwaysYes = true := by
    rw [hk1.2.2.2.2]
    exact hg2
  have hk2 := brewTapStep_keeps "homebrew-python" (brewTapStep "homebrew-core" wg) hg1
  have hg2b : (brewTapStep "homebrew-python"
      (brewTapStep "homebrew-core" wg)).2.alwaysYes = true := by
    rw [hk2.2.2.2.2]
    exact hg1
  have hk3 := brewTapStep_keeps "homebrew-science"
    (brewTapStep "homebrew-python" (brewTapStep "homebrew-core" wg)) hg2b
  refine ⟨?_, ?_, ?_⟩
  · rw [hk3.1, hk2.1, hk1.1]
  · rw [hk3.2.2.1, hk2.2.2.1, hk1.2.2.1]
  · rw [hk3.2.2.2.2, hk2.2.2.2.2, hk1.2.2.2.2]

/-- Helper: `set_env` on a bash host appends the export line to the profile. -/
theorem set_env_bash (key value : String) (w2 : BrewWorld)
    (hsh2 : shellName w2.shellVar = some "bash") :
    set_env key value w2 =
      .ok { w2 with profile := w2.profile ++
        ["export " ++ key ++ "=" ++ value ++ "\n"] } := by
  unfold set_env
  rw [hsh2]
  rfl

/-- Helper: `Homebrew.up` under auto-confirm on a bash host succeeds, returns
the same gate, and preserves the repo path and shell variable. -/
theorem brew_up_shape (w : BrewWorld) (g : Gate) (hg : g.alwaysYes = true)
    (hrp : w.repoPath.isSome = true) (hsh : shellName w.shellVar = some "bash") :
    ∃ w1, Homebrew.up w g = .ok (true, w1, g) ∧
      w1.repoPath = w.repoPath ∧ w1.shellVar = w.shellVar := by
  rcases hp : w.repoPath with _ | p
  · rw [hp] at hrp
    simp at hrp
  · have hps := promptStep_yes g hg
    have hask : ask_if_change tunaBrewGit (fun x => x.repoRemote)
        (fun x => { x with repoRemote := some tunaBrewGit }) w g =
        (true, { w with repoRemote := some tunaBrewGit }, g) := by
      unfold ask_if_change
      by_cases hr : (w.repoRemote != some tunaBrewGit) = true
      · rw [if_pos hr, hps]
        rfl
      · rw [if_neg hr]
        have he : w.repoRemote = some tunaBrewGit := by simpa using hr
        obtain ⟨rp, rr, td, tr0, sv, eb, pf, zp⟩ := w
        have he2 : rr = some tunaBrewGit := he
        subst he2
        rfl
    have hch := brewChain_keeps ({ w with repoRemote := some tunaBrewGit }, g) hg
    have hshch : shellName (brewTapStep "homebrew-science" (brewTapStep "homebrew-python"
        (brewTapStep "homebrew-core"
          ({ w with repoRemote := some tunaBrewGit }, g)))).1.shellVar = some "bash" := by
      rw [hch.2.1]
      exact hsh
    have hgch : (brewTapStep "homebrew-science" (brewTapStep "homebrew-python"
        (brewTapStep "homebrew-core"
          ({ w with repoRemote := some tunaBrewGit }, g)))).2 = g := hch.2.2
    have hset2 := set_env_bash "HOMEBREW_BOTTLE_DOMAIN" bottleDomainUrl
      (brewTapStep "homebrew-science" (brewTapStep "homebrew-python"
        (brewTapStep "homebrew-core"
          ({ w with repoRemote := some tunaBrewGit }, g)))).1 hshch
    have hup : Homebrew.up w g = .ok (true,
        { (brewTapStep "homebrew-science" (brewTapStep "homebrew-python"
            (brewTapStep "homebrew-core"
              ({ w with repoRemote := some tunaBrewGit }, g)))).1 with
          profile := (brewTapStep "homebrew-science" (brewTapStep "homebrew-python"
            (brewTapStep "homebrew-core"
              ({ w with repoRemote := some tunaBrewGit }, g)))).1.profile ++
            ["export " ++ "HOMEBREW_BOTTLE_DOMAIN" ++ "=" ++ bottleDomainUrl ++ "\n"] }, g) := by
      unfold Homebrew.up
      rw [hp]
      dsimp only
      rw [← hp]
      rw [hask]
      dsimp only
      rw [hset2]
      dsimp only
      rw [hgch]
    refine ⟨_, hup, ?_, ?_⟩
    · dsimp only
      exact hch.1.trans hp
    · dsimp only
      exact hch.2.1

/-- Helper: `Homebrew.down` on a bash host always succeeds and always leaves
the module offline: the repo remote is reset to GitHub. -/
theorem brew_down_offline (w : BrewWorld) (g2 : Gate)
    (hrp : w.repoPath.isSome = true) (hsh : shellName w.shellVar = some "bash") :
    (Homebrew.down w g2).map (fun r => r.1) = .ok true ∧
    (Homebrew.down w g2).map (fun r => Homebrew.is_online r.2.1) = .ok (.ok false) := by
  obtain ⟨rp, rr, td, tr0, sv, eb, pf, zp⟩ := w
  rcases rp with _ | p
  · simp at hrp
  · have hsh2 : shellName sv = some "bash" := hsh
    unfold Homebrew.down remove_env
    dsimp only
    rw [hsh2]
    dsimp only
    exact ⟨rfl, rfl⟩

/-- Helper: the Homebrew round trip: up succeeds (auto-confirm, bash), down
succeeds, and the module reports offline afterwards. -/
theorem brew_roundtrip (w : BrewWorld) (g : Gate) (hg : g.alwaysYes = true)
    (hrp : w.repoPath.isSome = true) (hsh : shellName w.shellVar = some "bash") :
    (Homebrew.up w g).map (fun r => r.1) = .ok true ∧
    ((Homebrew.up w g).bind (fun r => Homebrew.down r.2.1 r.2.2)).map (fun r => r.1) = .ok true ∧
    ((Homebrew.up w g).bind (fun r => Homebrew.down r.2.1 r.2.2)).map
      (fun r => Homebrew.is_online r.2.1) = .ok (.ok false) := by
  obtain ⟨w1, hup, hrp1, hsv1⟩ := brew_up_shape w g hg hrp hsh
  have hd := brew_down_offline w1 g (by rw [hrp1]; exact hrp) (by rw [hsv1]; exact hsh)
  refine ⟨?_, ?_, ?_⟩
  · rw [hup]
    rfl
  · rw [hup]
    exact hd.1
  · rw [hup]
    exact hd.2

/-- C6: For every module that implements deactivation, running `up` (confirmed)
from a not-online state and then `down` (confirmed) restores `is_online` to its
pre-`up` value (false).  Covered modules: ArchLinux (mirrorlist rewrite — down
always ends offline, so the round trip holds from any start), Pypi (pip.conf
set/remove round trip on well-formed config files), Debian and Ubuntu
(sources.list backup-then-replace, restoring the backup when the copy
succeeded and the stock default template otherwise — which also differs from
the mirror template), and Homebrew on a bash host (remotes reset to GitHub and
the bottle-domain export removed).  Anaconda's `down` delegates entirely to the
external `conda config --remove-key` command, so its round trip has no
in-program content to state. -/
theorem up_down_roundtrip :
    (∀ (ml : List Char) (g : Gate), g.alwaysYes = true →
      ArchLinux.is_online ml = false →
      (ArchLinux.up ml g).1 = true ∧
      (ArchLinux.down (ArchLinux.up ml g).2.1 (ArchLinux.up ml g).2.2).1 = true ∧
      ArchLinux.is_online
        (ArchLinux.down (ArchLinux.up ml g).2.1 (ArchLinux.up ml g).2.2).2.1 = false) ∧
    (∀ (w : PipWorld), fileValid w.file0 → Pypi.is_online w = false →
      (Pypi.up w).1 = true ∧ (Pypi.down (Pypi.up w).2).1 = true ∧
      Pypi.is_online (Pypi.down (Pypi.up w).2).2 = false) ∧
    (∀ (w : AptWorld) (g : Gate), g.alwaysYes = true → w.sourcesList.isSome = true →
      Apt.is_online debianVariant w = .ok false →
      (Apt.up debianVariant w g).1 = true ∧
      (Apt.down debianVariant (Apt.up debianVariant w g).2.1
        (Apt.up debianVariant w g).2.2).1 = true ∧
      Apt.is_online debianVariant
        (Apt.down debianVariant (Apt.up debianVariant w g).2.1
          (Apt.up debianVariant w g).2.2).2.1 = .ok false) ∧
    (∀ (w : AptWorld) (g : Gate), g.alwaysYes = true → w.sourcesList.isSome = true →
      Apt.is_online ubuntuVariant w = .ok false →
      (Apt.up ubuntuVariant w g).1 = true ∧
      (Apt.down ubuntuVariant (Apt.up ubuntuVariant w g).2.1
        (Apt.up ubuntuVariant w g).2.2).1 = true ∧
      Apt.is_online ubuntuVariant
        (Apt.down ubuntuVariant (Apt.up ubuntuVariant w g).2.1
          (Apt.up ubuntuVariant w g).2.2).2.1 = .ok false) ∧
    (∀ (w : BrewWorld) (g : Gate), g.alwaysYes = true → w.repoPath.isSome = true →
      shellName w.shellVar = some "bash" → Homebrew.is_online w = .ok false →
      (Homebrew.up w g).map (fun r => r.1) = .ok true ∧
      ((Homebrew.up w g).bind (fun r => Homebrew.down r.2.1 r.2.2)).map
        (fun r => r.1) = .ok true ∧
      ((Homebrew.up w g).bind (fun r => Homebrew.down r.2.1 r.2.2)).map
        (fun r => Homebrew.is_online r.2.1) = .ok (.ok false)) :=
  ⟨fun ml g hg _ => arch_roundtrip ml g hg,
   fun w hv hoff => pypi_roundtrip w hv hoff,
   fun w g hg hs hoff => apt_roundtrip debianVariant w g hg hs hoff debian_tmpl_ne,
   fun w g hg hs hoff => apt_roundtrip ubuntuVariant w g hg hs hoff ubuntu_tmpl_ne,
   fun w g hg hrp hsh _ => brew_roundtrip w g hg hrp hsh⟩

/-- Witness for C6 at concrete inputs: an empty Arch mirrorlist, an absent pip
config, empty Debian and Ubuntu sources lists, and a stock GitHub-pointing
Homebrew install under bash, all driven by the auto-confirming gate. -/
theorem up_down_roundtrip_witness :
    ArchLinux.is_online
      (ArchLinux.down (ArchLinux.up [] gAuto).2.1 (ArchLinux.up [] gAuto).2.2).2.1 = false ∧
    Pypi.is_online (Pypi.down (Pypi.up pipW0).2).2 = false ∧
    Apt.is_online debianVariant
      (Apt.down debianVariant (Apt.up debianVariant aptW0 gAuto).2.1
        (Apt.up debianVariant aptW0 gAuto).2.2).2.1 = .ok false ∧
    Apt.is_online ubuntuVariant
      (Apt.down ubuntuVariant (Apt.up ubuntuVariant aptU0 gAuto).2.1
        (Apt.up ubuntuVariant aptU0 gAuto).2.2).2.1 = .ok false ∧
    ((Homebrew.up hbW0 gAuto).bind (fun r => Homebrew.down r.2.1 r.2.2)).map
      (fun r => Homebrew.is_online r.2.1) = .ok (.ok false) :=
  ⟨(up_down_roundtrip.1 [] gAuto rfl rfl).2.2,
   (up_down_roundtrip.2.1 pipW0 trivial rfl).2.2,
   (up_down_roundtrip.2.2.1 aptW0 gAuto rfl rfl rfl).2.2,
   (up_down_roundtrip.2.2.2.1 aptU0 gAuto rfl rfl rfl).2.2,
   (up_down_roundtrip.2.2.2.2 hbW0 gAuto rfl rfl rfl rfl).2.2⟩

end OhMyTuna
